import Mathlib

/-!
Verification development for the Network-Enumeration-Tool repository.

The Python sources (utils.py, models.py, nmap_handler.py, nmap_parser.py,
target_parser.py, dns_safety.py, windows_enum.py, main.py) are shallowly
embedded below.  Pure functions become Lean functions; subprocess calls are
modelled by an explicit environment (`Env`) mapping a command line to its
outcome, mirroring the try/except structure of the handlers; Python `re`
searches are hand-compiled into deterministic scanners (each definition
quotes the original regex; for the patterns used here greedy scanning with
the noted one-step backtracks is exactly Python's leftmost search semantics,
because each quantified class is disjoint from the character that follows
it).  Machine strings are Lean `String`/`List Char`; the ASCII fragment of
Python's `\s`, `\w`, `\d`, `.lower()` and `.strip()` is modelled, which is
what the tool's inputs exercise.
-/

/-! ## Character and string helpers (modelling Python string primitives) -/

abbrev Chars := List Char

/-- Python `\s` (ASCII fragment): space, tab, newline, carriage return,
vertical tab, form feed. -/
def isWsC (c : Char) : Bool :=
  c = ' ' || c = '\t' || c = '\n' || c = '\r' || c.toNat = 11 || c.toNat = 12

/-- Python `\w` (ASCII fragment). -/
def isWordC (c : Char) : Bool :=
  c.isAlpha || c.isDigit || c = '_'

/-- Python `str.split(',')` on the character list. -/
def splitOnChar (sep : Char) : Chars → List Chars
  | [] => [[]]
  | c :: rest =>
    if c = sep then [] :: splitOnChar sep rest
    else
      match splitOnChar sep rest with
      | [] => [[c]]
      | p :: ps => (c :: p) :: ps

/-- Python `str.split(',')`. -/
def pySplit (sep : Char) (s : String) : List String :=
  (splitOnChar sep s.data).map String.mk

/-- Python `str.strip()` (ASCII whitespace). -/
def pyStripChars (cs : Chars) : Chars :=
  ((cs.dropWhile isWsC).reverse.dropWhile isWsC).reverse

/-- Python `str.strip()`. -/
def pyStrip (s : String) : String :=
  String.mk (pyStripChars s.data)

/-- Python `str.lower()` (ASCII). -/
def pyLower (s : String) : String :=
  String.mk (s.data.map Char.toLower)

/-- Python `c in s` for a single character. -/
def pyContainsChar (c : Char) (s : String) : Bool :=
  s.data.contains c

/-- Prefix test on character lists (case-sensitive). -/
def isPrefixC : Chars → Chars → Bool
  | [], _ => true
  | _ :: _, [] => false
  | p :: ps, c :: cs => p = c && isPrefixC ps cs

/-- Python `pat in s` (case-sensitive substring search). -/
def hasSubstrC (pat : Chars) : Chars → Bool
  | [] => isPrefixC pat []
  | s@(_ :: rest) => isPrefixC pat s || hasSubstrC pat rest

/-- Python `pat in s` on strings. -/
def pyIn (pat s : String) : Bool :=
  hasSubstrC pat.data s.data

/-- Case-insensitive substring search (models `re.search` of a plain literal
with `re.IGNORECASE`). -/
def hasSubstrCI (pat s : Chars) : Bool :=
  hasSubstrC (pat.map Char.toLower) (s.map Char.toLower)

/-- Drop a case-insensitive literal (the pattern is given lowercased);
returns the rest of the input on success. -/
def dropLitCI : Chars → Chars → Option Chars
  | [], s => some s
  | _ :: _, [] => none
  | p :: ps, c :: cs => if c.toLower = p then dropLitCI ps cs else none

/-- Like `dropLitCI` but also returns the consumed input characters (with
their original case), modelling a capture of the matched text. -/
def dropLitCIKeep : Chars → Chars → Option (Chars × Chars)
  | [], s => some ([], s)
  | _ :: _, [] => none
  | p :: ps, c :: cs =>
    if c.toLower = p then
      match dropLitCIKeep ps cs with
      | some (m, r) => some (c :: m, r)
      | none => none
    else none

/-- Drop a case-sensitive literal. -/
def dropLit : Chars → Chars → Option Chars
  | [], s => some s
  | _ :: _, [] => none
  | p :: ps, c :: cs => if c = p then dropLit ps cs else none

/-- Greedy `class+`: one or more characters of a class, returning the
matched run and the rest.  Exactly Python's `X+` when the following pattern
element cannot match a character of `X`. -/
def plus1 (p : Char → Bool) (s : Chars) : Option (Chars × Chars) :=
  let (a, r) := s.span p
  if a.isEmpty then none else some (a, r)

/-- Models `re.search`: try the position matcher at every start position,
leftmost success wins. -/
def searchPos {α : Type} (f : Chars → Option α) : Chars → Option α
  | [] => f []
  | s@(_ :: rest) =>
    match f s with
    | some a => some a
    | none => searchPos f rest

/-- Scan for positions just after a newline and try the matcher there. -/
def searchAfterNl {α : Type} (f : Chars → Option α) : Chars → Option α
  | [] => none
  | '\n' :: rest =>
    match f rest with
    | some a => some a
    | none => searchAfterNl f rest
  | _ :: rest => searchAfterNl f rest

/-- Models `re.search` with `re.MULTILINE` for a `^`-anchored pattern: try
the matcher at the string start and after every newline. -/
def searchLineStart {α : Type} (f : Chars → Option α) (s : Chars) : Option α :=
  match f s with
  | some a => some a
  | none => searchAfterNl f s

/-- Everything before the first newline: one greedy `.+`/`[^\n]+` step. -/
def takeUntilNl (s : Chars) : Chars := s.takeWhile (· ≠ '\n')

/-- Matches the regex tail `\s*(.+)` at `r` and returns the raw capture:
greedy whitespace, then at least one non-newline character.  When the
whitespace run reaches the end of the input, Python's backtracking hands the
last non-newline whitespace character to the `.+` group. -/
def wsStarDotPlus (r : Chars) : Option Chars :=
  let (w, r2) := r.span isWsC
  match r2 with
  | _ :: _ => some (takeUntilNl r2)
  | [] =>
    match w.reverse.find? (· ≠ '\n') with
    | some c => some [c]
    | none => none

/-- Matches the regex tail `\s+(.+)` at `r` (whitespace now mandatory). -/
def wsPlusDotPlus (r : Chars) : Option Chars :=
  let (w, r2) := r.span isWsC
  if w.isEmpty then none
  else
    match r2 with
    | _ :: _ => some (takeUntilNl r2)
    | [] =>
      match (w.drop 1).reverse.find? (· ≠ '\n') with
      | some c => some [c]
      | none => none

/-- Digits of a decimal run to a natural number. -/
def digitsToNat (cs : Chars) : Nat :=
  cs.foldl (fun n c => n * 10 + (c.toNat - '0'.toNat)) 0

/-! ## utils.py -/

/-- `utils.is_valid_ip` helper: one octet as accepted by Python
`ipaddress.IPv4Address` — 1 to 3 ASCII digits, value at most 255, no
leading zero on a multi-digit octet. -/
def parseOctet (cs : Chars) : Option Nat :=
  if cs.isEmpty then none
  else if ¬ cs.all Char.isDigit then none
  else if cs.length > 3 then none
  else if cs.length > 1 && cs.head? = some '0' then none
  else
    let n := digitsToNat cs
    if n ≤ 255 then some n else none

/-- Python `ipaddress.IPv4Address(s)` as the 32-bit value of a dotted quad,
`none` when the string is rejected. -/
def parseIPv4 (s : String) : Option Nat :=
  match (splitOnChar '.' s.data).mapM parseOctet with
  | some [a, b, c, d] => some (((a * 256 + b) * 256 + c) * 256 + d)
  | _ => none

/-- `utils.is_valid_ip`: true iff `ipaddress.IPv4Address` accepts the
string. -/
def is_valid_ip (s : String) : Bool :=
  (parseIPv4 s).isSome

/-- Render a 32-bit value back to a dotted quad (Python `str(IPv4Address)`). -/
def natToIpStr (n : Nat) : String :=
  toString (n / 16777216 % 256) ++ "." ++ toString (n / 65536 % 256) ++ "." ++
    toString (n / 256 % 256) ++ "." ++ toString (n % 256)

/-- Python `ipaddress.IPv4Network(cidr, strict=False)`: split at the first
slash, parse a dotted-quad address and a decimal prefix length of at most
32, and mask away host bits.  Returns `(network value, prefix length)`, or
`none` for input the library rejects (modelling its `ValueError`). -/
def parseCidr (s : String) : Option (Nat × Nat) :=
  let cs := s.data
  let addrPart := cs.takeWhile (· ≠ '/')
  let rest := cs.dropWhile (· ≠ '/')
  match rest with
  | '/' :: prefixPart =>
    match parseIPv4 (String.mk addrPart) with
    | none => none
    | some a =>
      if prefixPart.isEmpty || ¬ prefixPart.all Char.isDigit then none
      else
        let p := digitsToNat prefixPart
        if p ≤ 32 then some (a / 2 ^ (32 - p) * 2 ^ (32 - p), p) else none
  | _ =>
    -- no slash: IPv4Network treats the address as a /32
    match parseIPv4 (String.mk addrPart) with
    | none => none
    | some a => some (a, 32)

/-- Python `IPv4Network.hosts()`: every address except network and
broadcast; a /31 yields both addresses and a /32 the single address. -/
def hostsOfNetwork (net p : Nat) : List Nat :=
  if p = 32 then [net]
  else if p = 31 then [net, net + 1]
  else (List.range (2 ^ (32 - p) - 2)).map (fun i => net + 1 + i)

/-- `utils.expand_cidr`: expand CIDR notation to the list of usable host
addresses; on `ValueError` the exception handler returns `[]`. -/
def expand_cidr (cidr : String) : List String :=
  match parseCidr cidr with
  | none => []
  | some (net, p) => (hostsOfNetwork net p).map natToIpStr

/-! ### utils.extract_os_from_nmap

All patterns are searched with `re.IGNORECASE`; a matched group returns the
original-case input substring. -/

/-- Group `(\d+\.?\d*|Server\s+\d{4}|XP|Vista|7|8|10|11)` at a position;
alternatives are tried in the regex's order. -/
def osVerGroup (s : Chars) : Option Chars :=
  match plus1 Char.isDigit s with
  | some (d, rest) =>
    -- branch \d+\.?\d*
    match rest with
    | '.' :: rest2 => some (d ++ '.' :: (rest2.takeWhile Char.isDigit))
    | _ => some d
  | none =>
    -- branch Server\s+\d{4}
    let serverBranch :=
      match dropLitCIKeep "server".data s with
      | some (sv, rest) =>
        match plus1 isWsC rest with
        | some (w, rest2) =>
          let four := rest2.take 4
          if four.length = 4 && four.all Char.isDigit then some (sv ++ w ++ four) else none
        | none => none
      | none => none
    match serverBranch with
    | some g => some g
    | none =>
      -- literal branches XP | Vista | 7 | 8 | 10 | 11 (the numeric ones are
      -- unreachable after the \d+ branch but kept in the regex's order)
      match dropLitCIKeep "xp".data s with
      | some (g, _) => some g
      | none =>
        match dropLitCIKeep "vista".data s with
        | some (g, _) => some g
        | none => none

/-- Pattern `Windows\s+(...)` at a position. -/
def winPat1At (s : Chars) : Option Chars :=
  match dropLitCI "windows".data s with
  | none => none
  | some s1 =>
    match plus1 isWsC s1 with
    | none => none
    | some (_, s2) => osVerGroup s2

/-- Pattern `Microsoft\s+Windows\s+(...)` at a position. -/
def winPat2At (s : Chars) : Option Chars :=
  match dropLitCI "microsoft".data s with
  | none => none
  | some s1 =>
    match plus1 isWsC s1 with
    | none => none
    | some (_, s2) =>
      match dropLitCI "windows".data s2 with
      | none => none
      | some s3 =>
        match plus1 isWsC s3 with
        | none => none
        | some (_, s4) => osVerGroup s4

/-- The `windows_patterns` loop: first matching pattern wins; `some ver`
means a pattern matched, with the version group when the pattern has one
(`Win32` has no group, so its version is `none`). -/
def windowsOsSearch (cs : Chars) : Option (Option String) :=
  match searchPos winPat1At cs with
  | some g => some (some (String.mk g))
  | none =>
    match searchPos winPat2At cs with
    | some g => some (some (String.mk g))
    | none =>
      if hasSubstrCI "win32".data cs then some none else none

/-- Pattern `Linux\s+(\d+\.\d+\.\d+)` at a position. -/
def linuxPat1At (s : Chars) : Option Chars :=
  match dropLitCI "linux".data s with
  | none => none
  | some s1 =>
    match plus1 isWsC s1 with
    | none => none
    | some (_, s2) =>
      match plus1 Char.isDigit s2 with
      | none => none
      | some (d1, r1) =>
        match r1 with
        | '.' :: r2 =>
          match plus1 Char.isDigit r2 with
          | none => none
          | some (d2, r3) =>
            match r3 with
            | '.' :: r4 =>
              match plus1 Char.isDigit r4 with
              | none => none
              | some (d3, _) => some (d1 ++ '.' :: d2 ++ '.' :: d3)
            | _ => none
        | _ => none

/-- Pattern `NAME\s+(\d+\.\d+)` at a position (used for `Ubuntu`). -/
def nameDottedVerAt (name : Chars) (s : Chars) : Option Chars :=
  match dropLitCI name s with
  | none => none
  | some s1 =>
    match plus1 isWsC s1 with
    | none => none
    | some (_, s2) =>
      match plus1 Char.isDigit s2 with
      | none => none
      | some (d1, r1) =>
        match r1 with
        | '.' :: r2 =>
          match plus1 Char.isDigit r2 with
          | none => none
          | some (d2, _) => some (d1 ++ '.' :: d2)
        | _ => none

/-- Pattern `NAME\s+(\d+)` at a position (used for `Debian`, `CentOS`). -/
def nameIntVerAt (name : Chars) (s : Chars) : Option Chars :=
  match dropLitCI name s with
  | none => none
  | some s1 =>
    match plus1 isWsC s1 with
    | none => none
    | some (_, s2) =>
      match plus1 Char.isDigit s2 with
      | none => none
      | some (d, _) => some d

/-- Pattern `Red\s+Hat\s+(\d+)` at a position. -/
def redHatAt (s : Chars) : Option Chars :=
  match dropLitCI "red".data s with
  | none => none
  | some s1 =>
    match plus1 isWsC s1 with
    | none => none
    | some (_, s2) =>
      match dropLitCI "hat".data s2 with
      | none => none
      | some s3 =>
        match plus1 isWsC s3 with
        | none => none
        | some (_, s4) =>
          match plus1 Char.isDigit s4 with
          | none => none
          | some (d, _) => some d

/-- The `linux_patterns` loop, in the source's order. -/
def linuxOsSearch (cs : Chars) : Option String :=
  match searchPos linuxPat1At cs with
  | some g => some (String.mk g)
  | none =>
    match searchPos (nameDottedVerAt "ubuntu".data) cs with
    | some g => some (String.mk g)
    | none =>
      match searchPos (nameIntVerAt "debian".data) cs with
      | some g => some (String.mk g)
      | none =>
        match searchPos (nameIntVerAt "centos".data) cs with
        | some g => some (String.mk g)
        | none =>
          match searchPos redHatAt cs with
          | some g => some (String.mk g)
          | none => none

/-- The `unix_patterns` loop: plain literals, no groups. -/
def unixOsSearch (cs : Chars) : Bool :=
  hasSubstrCI "unix".data cs || hasSubstrCI "freebsd".data cs ||
    hasSubstrCI "openbsd".data cs || hasSubstrCI "netbsd".data cs ||
    hasSubstrCI "solaris".data cs

/-- `utils.extract_os_from_nmap`: OS type and version from raw scanner
output. -/
def extract_os_from_nmap (output : String) : Option String × Option String :=
  let cs := output.data
  match windowsOsSearch cs with
  | some ver => (some "Windows", ver)
  | none =>
    match linuxOsSearch cs with
    | some ver => (some "Linux", some ver)
    | none =>
      if unixOsSearch cs then (some "Unix", none) else (none, none)

/-! ### utils.extract_services_from_nmap -/

/-- The groups of one match of
`(\d+)/(tcp|udp)\s+(\w+)\s+(\S+)(?:\s+(.+))?`. -/
structure SvcMatch where
  port : Nat
  protocol : String
  state : String
  svcName : String
  version : Option String
deriving DecidableEq

/-- The optional tail `(?:\s+(.+))?`: group 5, or `none` when the optional
part does not participate in the match. -/
def svcOptVersion (r : Chars) : Option Chars :=
  wsPlusDotPlus r

/-- The service-line pattern tried at one position. -/
def svcLineAt (s : Chars) : Option SvcMatch :=
  match plus1 Char.isDigit s with
  | none => none
  | some (ds, s1) =>
    match s1 with
    | '/' :: s2 =>
      let proto :=
        match dropLit "tcp".data s2 with
        | some r => some ("tcp", r)
        | none =>
          match dropLit "udp".data s2 with
          | some r => some ("udp", r)
          | none => none
      match proto with
      | none => none
      | some (pr, s3) =>
        match plus1 isWsC s3 with
        | none => none
        | some (_, s4) =>
          match plus1 isWordC s4 with
          | none => none
          | some (st, s5) =>
            match plus1 isWsC s5 with
            | none => none
            | some (_, s6) =>
              match plus1 (fun c => ¬ isWsC c) s6 with
              | none => none
              | some (nm, s7) =>
                some { port := digitsToNat ds, protocol := pr,
                       state := String.mk st, svcName := String.mk nm,
                       version := (svcOptVersion s7).map String.mk }
    | _ => none

/-- One entry of the dict list built by `extract_services_from_nmap`
(the Python dict has keys port/protocol/name/version; the state was only
used for the filter). -/
structure SvcEntry where
  port : Nat
  protocol : String
  svcName : String
  version : Option String
deriving DecidableEq

/-- `utils.extract_services_from_nmap`: search the pattern on every line
and keep the lines whose state group is exactly `"open"`.  A matched but
falsy (empty after strip) version group becomes `None`...  the source keeps
`match.group(5).strip() if match.group(5) else None`. -/
def extract_services_from_nmap (output : String) : List SvcEntry :=
  (splitOnChar '\n' output.data).filterMap fun line =>
    match searchPos svcLineAt line with
    | none => none
    | some m =>
      if m.state = "open" then
        some { port := m.port, protocol := m.protocol, svcName := m.svcName,
               version := match m.version with
                          | some v => if v ≠ "" then some (pyStrip v) else none
                          | none => none }
      else none

/-! ## models.py -/

/-- `models.Service`. -/
structure Service where
  svcName : String
  port : Nat
  protocol : String
  version : Option String := none
  state : String := "open"
deriving DecidableEq

/-- `models.CommandOutput` (the wall-clock timestamp field is ambient time
and is not modelled). -/
structure CommandOutput where
  command : String
  output : String
deriving DecidableEq

/-- `models.HostInfo` with the dataclass defaults; `windows_info` is the
dict modelled as an insertion-ordered association list with unique keys. -/
structure HostInfo where
  ip_address : String
  hostname : Option String := none
  domain : Option String := none
  os_type : Option String := none
  os_version : Option String := none
  services : List Service := []
  windows_info : List (String × String) := []
  command_outputs : List CommandOutput := []
  unverified_info : List String := []
  is_windows : Bool := false
deriving DecidableEq

/-- Python dict `d[k] = v`: replace the value of an existing key in place,
else append. -/
def dictInsert {α : Type} : List (String × α) → String → α → List (String × α)
  | [], k, v => [(k, v)]
  | (k', v') :: rest, k, v =>
    if k' = k then (k, v) :: rest else (k', v') :: dictInsert rest k v

/-- Python dict lookup (`d.get(k)` / `k in d`). -/
def dictLookup {α : Type} : List (String × α) → String → Option α
  | [], _ => none
  | (k', v) :: rest, k => if k' = k then some v else dictLookup rest k

/-- Python `d.update(other)`: last write wins per key, preserving insertion
order of the keys already present. -/
def dictMerge {α : Type} (base add : List (String × α)) : List (String × α) :=
  add.foldl (fun acc kv => dictInsert acc kv.1 kv.2) base

/-- `HostInfo.add_service`. -/
def HostInfo.add_service (h : HostInfo) (s : Service) : HostInfo :=
  { h with services := h.services ++ [s] }

/-- `HostInfo.add_command_output`. -/
def HostInfo.add_command_output (h : HostInfo) (command output : String) : HostInfo :=
  { h with command_outputs := h.command_outputs ++ [⟨command, output⟩] }

/-- `HostInfo.add_unverified_info`. -/
def HostInfo.add_unverified_info (h : HostInfo) (info : String) : HostInfo :=
  { h with unverified_info := h.unverified_info ++ [info] }

/-- `models.EnumerationResults` (the `start_time` field is ambient time and
is not modelled); `hosts` is the dict keyed by IP address. -/
structure EnumerationResults where
  hosts : List (String × HostInfo) := []
deriving DecidableEq

/-- `EnumerationResults.add_host`: `self.hosts[host.ip_address] = host`. -/
def EnumerationResults.add_host (r : EnumerationResults) (h : HostInfo) : EnumerationResults :=
  { r with hosts := dictInsert r.hosts h.ip_address h }

/-- `EnumerationResults.get_host`. -/
def EnumerationResults.get_host (r : EnumerationResults) (ip : String) : Option HostInfo :=
  dictLookup r.hosts ip

/-! ## nmap_handler.py and utils.run_command

Subprocess execution is external; an `Env` maps a command line to its
outcome and the handlers' try/except logic is embedded on top of it. -/

/-- Outcome of one `subprocess.run` call: normal completion (with the
combined stdout+stderr text and return code), `subprocess.TimeoutExpired`,
or any other exception (`FileNotFoundError` included) with its message. -/
inductive ProcResult where
  | completed (output : String) (returncode : Int)
  | timedOut
  | failed (msg : String)
deriving DecidableEq

/-- The external collaborators of one run: subprocess execution, DNS
resolution (`socket.gethostbyname`, `none` on `gaierror`), and the result
of the interactive DNS-safety confirmation. -/
structure Env where
  runProcess : List String → ProcResult
  resolve : String → Option String
  confirm : Bool

/-- `utils.run_command` (the timeout argument only parameterizes the
subprocess call and is immaterial here). -/
def run_command (env : Env) (command : List String) : String × Int :=
  match env.runProcess command with
  | .completed out code => (out, code)
  | .timedOut => ("Command timed out", -1)
  | .failed e => (e, -1)

namespace NmapHandler

/-- `NmapHandler.check_nmap_installed`. -/
def check_nmap_installed (env : Env) : Bool :=
  match env.runProcess ["nmap", "--version"] with
  | .completed _ code => code = 0
  | _ => false

/-- The command line built by `nmap_tcp_quick`. -/
def quickCmdList (target : String) (ports : Option String) : List String :=
  ["nmap", "-sV", "-sC", "-T4", "--open", "-Pn"] ++
    (match ports with
     | some p => ["-p", p]
     | none => ["-F"]) ++ [target]

/-- `NmapHandler.nmap_tcp_quick`. -/
def nmap_tcp_quick (env : Env) (target : String) (ports : Option String) : String × Int :=
  match env.runProcess (quickCmdList target ports) with
  | .completed out code => (out, code)
  | .timedOut => ("Nmap scan timed out", -1)
  | .failed e => (e, -1)

/-- The command line built by `nmap_os_detection`. -/
def osCmdList (target : String) : List String :=
  ["nmap", "-O", "--osscan-guess", "-T4", "-Pn", target]

/-- `NmapHandler.nmap_os_detection`. -/
def nmap_os_detection (env : Env) (target : String) : String × Int :=
  match env.runProcess (osCmdList target) with
  | .completed out code => (out, code)
  | .timedOut => ("Nmap OS detection timed out", -1)
  | .failed e => (e, -1)

end NmapHandler

/-! ## nmap_parser.py -/

namespace NmapParser

/-- `\d+\.\d+\.\d+\.\d+` at a position, capturing the matched text. -/
def quadAt (s : Chars) : Option (Chars × Chars) :=
  match plus1 Char.isDigit s with
  | none => none
  | some (d1, r1) =>
    match r1 with
    | '.' :: r2 =>
      match plus1 Char.isDigit r2 with
      | none => none
      | some (d2, r3) =>
        match r3 with
        | '.' :: r4 =>
          match plus1 Char.isDigit r4 with
          | none => none
          | some (d3, r5) =>
            match r5 with
            | '.' :: r6 =>
              match plus1 Char.isDigit r6 with
              | none => none
              | some (d4, r7) =>
                some (d1 ++ '.' :: d2 ++ '.' :: d3 ++ '.' :: d4, r7)
            | _ => none
        | _ => none
    | _ => none

/-- `re.match(r'^\d+\.\d+\.\d+\.\d+$', s)`: the whole string is four
dot-separated digit runs. -/
def isQuadString (s : Chars) : Bool :=
  match quadAt s with
  | some (_, []) => true
  | _ => false

/-- Pattern 1 of `parse_hostname`,
`Nmap scan report for\s+([^\s(]+)` with `re.IGNORECASE`, at a position. -/
def hostnamePat1At (s : Chars) : Option Chars :=
  match dropLitCI "nmap scan report for".data s with
  | none => none
  | some s1 =>
    match plus1 isWsC s1 with
    | none => none
    | some (_, s2) =>
      match plus1 (fun c => ¬ isWsC c && c ≠ '(') s2 with
      | none => none
      | some (g, _) => some g

/-- Pattern 2 of `parse_hostname`,
`([a-zA-Z0-9.-]+)\s+\((\d+\.\d+\.\d+\.\d+)\)`, at a position. -/
def hostnamePat2At (s : Chars) : Option Chars :=
  match plus1 (fun c => c.isAlpha || c.isDigit || c = '.' || c = '-') s with
  | none => none
  | some (g, r1) =>
    match plus1 isWsC r1 with
    | none => none
    | some (_, r2) =>
      match r2 with
      | '(' :: r3 =>
        match quadAt r3 with
        | some (_, ')' :: _) => some g
        | _ => none
      | _ => none

/-- `NmapParser.parse_hostname`. -/
def parse_hostname (output : String) : Option String :=
  let cs := output.data
  match searchPos hostnamePat1At cs with
  | some hostname =>
    if isQuadString hostname then none else some (String.mk hostname)
  | none =>
    match searchPos hostnamePat2At cs with
    | some g => some (String.mk g)
    | none => none

/-- Pattern 1 of `parse_ip_address`, `\((\d+\.\d+\.\d+\.\d+)\)`, at a
position. -/
def ipParenAt (s : Chars) : Option Chars :=
  match s with
  | '(' :: s1 =>
    match quadAt s1 with
    | some (ip, ')' :: _) => some ip
    | _ => none
  | _ => none

/-- Pattern 2 of `parse_ip_address`,
`^Nmap scan report for\s+(\d+\.\d+\.\d+\.\d+)` with `re.MULTILINE`, at a
line start. -/
def ipReportAt (s : Chars) : Option Chars :=
  match dropLit "Nmap scan report for".data s with
  | none => none
  | some s1 =>
    match plus1 isWsC s1 with
    | none => none
    | some (_, s2) =>
      match quadAt s2 with
      | some (ip, _) => some ip
      | none => none

/-- `NmapParser.parse_ip_address`. -/
def parse_ip_address (output : String) : Option String :=
  let cs := output.data
  match searchPos ipParenAt cs with
  | some ip => some (String.mk ip)
  | none =>
    match searchLineStart ipReportAt cs with
    | some ip => some (String.mk ip)
    | none => none

/-- `NmapParser.parse_services`: every extracted dict becomes a `Service`
with state set to `"open"`. -/
def parse_services (output : String) : List Service :=
  (extract_services_from_nmap output).map fun svc =>
    { svcName := svc.svcName, port := svc.port, protocol := svc.protocol,
      version := svc.version, state := "open" }

/-- The `OS details:` section collector of `parse_os_info`: lines after a
marker line are gathered (stripped) until a non-indented non-empty line. -/
def osSectionLines : List String → Bool → List String
  | [], _ => []
  | line :: rest, inSec =>
    if pyIn "OS details:" line || pyIn "OS CPE:" line then
      osSectionLines rest true
    else if inSec then
      if pyStrip line ≠ "" && ¬ (line.data.head? = some ' ') then []
      else if pyStrip line ≠ "" then pyStrip line :: osSectionLines rest inSec
      else osSectionLines rest inSec
    else osSectionLines rest false

/-- `Windows\s+(Server\s+)?(\d{4}|\d+\.\d+)` with `re.IGNORECASE` at a
position; only whether it matches is used. -/
def winVerHintAt (s : Chars) : Option Unit :=
  match dropLitCI "windows".data s with
  | none => none
  | some s1 =>
    match plus1 isWsC s1 with
    | none => none
    | some (_, s2) =>
      -- try with the optional (Server\s+) present first, then without
      let grp2 : Chars → Bool := fun r =>
        (r.take 4).length = 4 && (r.take 4).all Char.isDigit ||
          (match plus1 Char.isDigit r with
           | some (_, '.' :: r2) => ¬ (r2.takeWhile Char.isDigit).isEmpty
           | _ => false)
      let withServer :=
        match dropLitCI "server".data s2 with
        | some s3 =>
          match plus1 isWsC s3 with
          | some (_, s4) => grp2 s4
          | none => false
        | none => false
      if withServer || grp2 s2 then some () else none

/-- `OS\s+CPE:\s+(.+)` with `re.IGNORECASE` at a position. -/
def osCpeAt (s : Chars) : Option Chars :=
  match dropLitCI "os".data s with
  | none => none
  | some s1 =>
    match plus1 isWsC s1 with
    | none => none
    | some (_, s2) =>
      match dropLitCI "cpe:".data s2 with
      | none => none
      | some s3 => wsPlusDotPlus s3

/-- `NmapParser.parse_os_info`: `(os_type, os_version, unverified_info)`. -/
def parse_os_info (output : String) : Option String × Option String × List String :=
  let (os_type, os_version) := extract_os_from_nmap output
  let lines := (splitOnChar '\n' output.data).map String.mk
  let os_lines := osSectionLines lines false
  let fromLines := os_lines.foldl
    (fun acc line =>
      if pyIn "Windows" line then
        match searchPos winVerHintAt line.data with
        | some _ => acc ++ ["OS version appears to be " ++ pyStrip line]
        | none => acc ++ ["OS details: " ++ pyStrip line]
      else if pyIn "Linux" line || pyIn "Unix" line then
        acc ++ ["OS details: " ++ pyStrip line]
      else acc) []
  let withCpe :=
    match searchPos osCpeAt output.data with
    | some g => fromLines ++ ["OS CPE: " ++ pyStrip (String.mk g)]
    | none => fromLines
  (os_type, os_version, withCpe)

/-- Python string truthiness of an optional string (`if os_type:`). -/
def optStrTruthy : Option String → Bool
  | none => false
  | some s => s ≠ ""

/-- Python `opt == "lit"` where `opt` may be `None`. -/
def optEqStr (o : Option String) (s : String) : Bool :=
  match o with
  | some t => t = s
  | none => false

/-- `NmapParser.parse_nmap_output`: build a `HostInfo` from raw output, or
`None` when no IP address can be extracted. -/
def parse_nmap_output (output command : String) : Option HostInfo :=
  match parse_ip_address output with
  | none => none
  | some ip =>
    let hostname := parse_hostname output
    let services := parse_services output
    let (os_type, os_version, unverified_info) := parse_os_info output
    let host_info : HostInfo :=
      { ip_address := ip, hostname := hostname,
        os_type := some (match os_type with
                         | some t => if t ≠ "" then t else "Unknown"
                         | none => "Unknown"),
        os_version := os_version, services := services,
        is_windows := optEqStr os_type "Windows" }
    let host_info := unverified_info.foldl (fun h i => h.add_unverified_info i) host_info
    some (host_info.add_command_output command output)

end NmapParser

/-! ## target_parser.py

The class keeps `resolved_targets` and `excluded_ips` as state; the methods
are embedded as functions of that state.  Target sets are `Finset String`
(Python `set`). -/

namespace TargetParser

/-- `TargetParser.parse_targets`: split on commas, strip, skip empties;
atoms with a slash are CIDR-expanded, literal addresses are added, anything
else goes through DNS resolution and is dropped when resolution fails. -/
def parse_targets (env : Env) (target_spec : String) : Finset String :=
  ((pySplit ',' target_spec).map pyStrip).foldl
    (fun targets part =>
      if part = "" then targets
      else if pyContainsChar '/' part then targets ∪ (expand_cidr part).toFinset
      else if is_valid_ip part then insert part targets
      else
        match env.resolve part with
        | some ip => insert ip targets
        | none => targets) ∅

/-- `TargetParser.parse_exclusions`: same dispatch as `parse_targets`, with
an early empty-specification return. -/
def parse_exclusions (env : Env) (exclusion_spec : String) : Finset String :=
  if exclusion_spec = "" then ∅
  else
    ((pySplit ',' exclusion_spec).map pyStrip).foldl
      (fun exclusions part =>
        if part = "" then exclusions
        else if pyContainsChar '/' part then exclusions ∪ (expand_cidr part).toFinset
        else if is_valid_ip part then insert part exclusions
        else
          match env.resolve part with
          | some ip => insert ip exclusions
          | none => exclusions) ∅

/-- `TargetParser.get_final_targets`: plain set difference of the two state
fields. -/
def get_final_targets (resolved_targets excluded_ips : Finset String) : Finset String :=
  resolved_targets \ excluded_ips

/-- `TargetParser.has_dns_targets`: true iff some non-empty stripped atom
neither contains a slash nor is a valid literal address. -/
def has_dns_targets (target_spec : String) : Bool :=
  ((pySplit ',' target_spec).map pyStrip).any fun part =>
    if part = "" then false
    else if pyContainsChar '/' part || is_valid_ip part then false
    else true

end TargetParser

/-! ## dns_safety.py -/

namespace DNSSafety

/-- The `input()` loop of `DNSSafety.prompt_confirmation`, over the
sequence of operator responses: an empty (stripped) response returns
`False`; `y`/`yes` returns `True`; `n`/`no` returns `False`; anything else
re-prompts.  `none` models the response sequence running out. -/
def prompt_confirmation : List String → Option Bool
  | [] => none
  | r :: rest =>
    let response := pyLower (pyStrip r)
    if response = "" then some false
    else if response = "y" || response = "yes" then some true
    else if response = "n" || response = "no" then some false
    else prompt_confirmation rest

end DNSSafety

/-! ## windows_enum.py -/

namespace WindowsEnumeration

/-- `WindowsEnumeration.enumerate_smb`: enum4linux, falling back to
smbclient with the outputs combined. -/
def enumerate_smb (env : Env) (target : String) : String × Int :=
  let (output, return_code) := run_command env ["enum4linux", "-a", target]
  if return_code = 0 || pyIn "DOMAIN" output || pyIn "WORKGROUP" output then
    (output, return_code)
  else
    let (output2, return_code2) := run_command env ["smbclient", "-L", target, "-N"]
    let combined := "=== enum4linux output ===\n" ++ output ++
      "\n\n=== smbclient output ===\n" ++ output2
    (combined, if return_code ≠ 0 then return_code2 else return_code)

/-- `WindowsEnumeration.enumerate_netbios`: nmblookup, falling back to
nbtscan with the outputs combined. -/
def enumerate_netbios (env : Env) (target : String) : String × Int :=
  let (output, return_code) := run_command env ["nmblookup", "-A", target]
  if return_code = 0 then (output, return_code)
  else
    let (output2, return_code2) := run_command env ["nbtscan", target]
    let combined := "=== nmblookup output ===\n" ++ output ++
      "\n\n=== nbtscan output ===\n" ++ output2
    (combined, if return_code ≠ 0 then return_code2 else return_code)

/-- The base-DN loop of `enumerate_ldap`: first base DN whose query exits
0 wins, else the fallback result of the anonymous query. -/
def ldapTryBases (env : Env) (target : String) (fallback : String × Int) :
    List String → String × Int
  | [] => fallback
  | base_dn :: rest =>
    let (output2, return_code2) :=
      run_command env ["ldapsearch", "-x", "-H", "ldap://" ++ target,
        "-b", base_dn, "-s", "base"]
    if return_code2 = 0 then (output2, return_code2)
    else ldapTryBases env target fallback rest

/-- `WindowsEnumeration.enumerate_ldap`: anonymous base query, then a list
of common base DNs, returning the first success or the first output. -/
def enumerate_ldap (env : Env) (target : String) : String × Int :=
  let (output, return_code) :=
    run_command env ["ldapsearch", "-x", "-H", "ldap://" ++ target, "-s", "base"]
  if return_code = 0 then (output, return_code)
  else
    ldapTryBases env target (output, return_code)
      ["dc=example,dc=com", "dc=domain,dc=local", "dc=corp,dc=local"]

/-- `Domain/Workgroup:\s*(.+)` with `re.IGNORECASE`, at a position. -/
def smbDomainAt (s : Chars) : Option Chars :=
  match dropLitCI "domain/workgroup:".data s with
  | none => none
  | some r => wsStarDotPlus r

/-- `Computer name:\s*(.+)` with `re.IGNORECASE`, at a position. -/
def smbComputerAt (s : Chars) : Option Chars :=
  match dropLitCI "computer name:".data s with
  | none => none
  | some r => wsStarDotPlus r

/-- `OS version:\s*(.+)` with `re.IGNORECASE`, at a position. -/
def smbOsVersionAt (s : Chars) : Option Chars :=
  match dropLitCI "os version:".data s with
  | none => none
  | some r => wsStarDotPlus r

/-- Join character-list lines back with newlines. -/
def joinNlChars : List Chars → Chars
  | [] => []
  | [l] => l
  | l :: ls => l ++ '\n' :: joinNlChars ls

/-- The group `[^\n]+(?:\n[^\n]+)*`: a greedy block of consecutive
non-empty lines, starting at a non-newline character. -/
def linesGroup (s : Chars) : Chars :=
  joinNlChars ((splitOnChar '\n' s).takeWhile (fun l => ¬ l.isEmpty))

/-- The tail `\s+([^\n]+(?:\n[^\n]+)*)`: like `wsPlusDotPlus` but the group
may continue over newlines through non-empty lines. -/
def wsPlusLines (r : Chars) : Option Chars :=
  let (w, r2) := r.span isWsC
  if w.isEmpty then none
  else
    match r2 with
    | _ :: _ => some (linesGroup r2)
    | [] =>
      match (w.drop 1).reverse.find? (· ≠ '\n') with
      | some c => some [c]
      | none => none

/-- `Share\s+Type\s+Comment\s+---+\s+([^\n]+(?:\n[^\n]+)*)` with
`re.IGNORECASE | re.MULTILINE`, at a position. -/
def smbShareAt (s : Chars) : Option Chars :=
  match dropLitCI "share".data s with
  | none => none
  | some s1 =>
    match plus1 isWsC s1 with
    | none => none
    | some (_, s2) =>
      match dropLitCI "type".data s2 with
      | none => none
      | some s3 =>
        match plus1 isWsC s3 with
        | none => none
        | some (_, s4) =>
          match dropLitCI "comment".data s4 with
          | none => none
          | some s5 =>
            match plus1 isWsC s5 with
            | none => none
            | some (_, s6) =>
              -- ---+  : at least three dashes
              match s6 with
              | '-' :: '-' :: s7 =>
                match plus1 (· = '-') s7 with
                | none => none
                | some (_, s8) => wsPlusLines s8
              | _ => none

/-- One `user:\[([^\]]+)\]` match (with `re.IGNORECASE`) at a position,
returning the group and the input after the match. -/
def smbUserAt (s : Chars) : Option (Chars × Chars) :=
  match dropLitCI "user:[".data s with
  | none => none
  | some s1 =>
    match plus1 (· ≠ ']') s1 with
    | some (g, ']' :: rest) => some (g, rest)
    | _ => none

/-- `re.findall` driver: scan left to right, continuing after each match
(our matchers always consume at least one character, so fuel equal to the
input length is exact). -/
def findAllAux {α : Type} (f : Chars → Option (α × Chars)) : Nat → Chars → List α
  | 0, _ => []
  | _, [] => []
  | fuel + 1, s@(_ :: rest) =>
    match f s with
    | some (g, after) => g :: findAllAux f fuel after
    | none => findAllAux f fuel rest

/-- `re.findall` of a group pattern. -/
def findAll {α : Type} (f : Chars → Option (α × Chars)) (s : Chars) : List α :=
  findAllAux f s.length s

/-- Python `", ".join`. -/
def joinComma : List String → String
  | [] => ""
  | [x] => x
  | x :: xs => x ++ ", " ++ joinComma xs

/-- Python `".".join`. -/
def joinDot : List String → String
  | [] => ""
  | [x] => x
  | x :: xs => x ++ "." ++ joinDot xs

/-- `WindowsEnumeration.parse_smb_output`. -/
def parse_smb_output (output : String) : List (String × String) :=
  let cs := output.data
  let info : List (String × String) := []
  let info :=
    match searchPos smbDomainAt cs with
    | some g => dictInsert info "Domain/Workgroup" (pyStrip (String.mk g))
    | none => info
  let info :=
    match searchPos smbComputerAt cs with
    | some g => dictInsert info "Computer Name" (pyStrip (String.mk g))
    | none => info
  let info :=
    match searchPos smbOsVersionAt cs with
    | some g => dictInsert info "OS Version" (pyStrip (String.mk g))
    | none => info
  let info :=
    match searchPos smbShareAt cs with
    | some g => dictInsert info "SMB Shares" (pyStrip (String.mk g))
    | none => info
  let users := findAll smbUserAt cs
  if ¬ users.isEmpty then
    dictInsert info "Users" (joinComma (users.map String.mk))
  else info

/-- `(\S+)\s+<00>\s+UNIQUE` at a position (case-sensitive). -/
def nbNameAt (s : Chars) : Option Chars :=
  match plus1 (fun c => ¬ isWsC c) s with
  | none => none
  | some (g, r1) =>
    match plus1 isWsC r1 with
    | none => none
    | some (_, r2) =>
      match dropLit "<00>".data r2 with
      | none => none
      | some r3 =>
        match plus1 isWsC r3 with
        | none => none
        | some (_, r4) =>
          match dropLit "UNIQUE".data r4 with
          | some _ => some g
          | none => none

/-- `(\S+)\s+<00>\s+GROUP` at a position (case-sensitive). -/
def nbDomainAt (s : Chars) : Option Chars :=
  match plus1 (fun c => ¬ isWsC c) s with
  | none => none
  | some (g, r1) =>
    match plus1 isWsC r1 with
    | none => none
    | some (_, r2) =>
      match dropLit "<00>".data r2 with
      | none => none
      | some r3 =>
        match plus1 isWsC r3 with
        | none => none
        | some (_, r4) =>
          match dropLit "GROUP".data r4 with
          | some _ => some g
          | none => none

/-- Hexadecimal digit (as in the class `[0-9A-Fa-f]`). -/
def isHexC (c : Char) : Bool :=
  c.isDigit || ('a' ≤ c && c ≤ 'f') || ('A' ≤ c && c ≤ 'F')

/-- `([0-9A-Fa-f]{2}[:-]){5}([0-9A-Fa-f]{2})` at a position, returning the
whole match (`group(0)`). -/
def macAt (s : Chars) : Option Chars :=
  let pair : Chars → Option (Chars × Chars) := fun r =>
    match r with
    | a :: b :: rest => if isHexC a && isHexC b then some ([a, b], rest) else none
    | _ => none
  let sep : Chars → Option (Char × Chars) := fun r =>
    match r with
    | c :: rest => if c = ':' || c = '-' then some (c, rest) else none
    | _ => none
  match pair s with
  | none => none
  | some (p1, r1) =>
    match sep r1 with
    | none => none
    | some (c1, r2) =>
      match pair r2 with
      | none => none
      | some (p2, r3) =>
        match sep r3 with
        | none => none
        | some (c2, r4) =>
          match pair r4 with
          | none => none
          | some (p3, r5) =>
            match sep r5 with
            | none => none
            | some (c3, r6) =>
              match pair r6 with
              | none => none
              | some (p4, r7) =>
                match sep r7 with
                | none => none
                | some (c4, r8) =>
                  match pair r8 with
                  | none => none
                  | some (p5, r9) =>
                    match sep r9 with
                    | none => none
                    | some (c5, r10) =>
                      match pair r10 with
                      | none => none
                      | some (p6, _) =>
                        some (p1 ++ c1 :: p2 ++ c2 :: p3 ++ c3 :: p4 ++
                          c4 :: p5 ++ c5 :: p6)

/-- `WindowsEnumeration.parse_netbios_output`. -/
def parse_netbios_output (output : String) : List (String × String) :=
  let cs := output.data
  let info : List (String × String) := []
  let info :=
    match searchPos nbNameAt cs with
    | some g => dictInsert info "NetBIOS Name" (String.mk g)
    | none => info
  let info :=
    match searchPos nbDomainAt cs with
    | some g => dictInsert info "NetBIOS Domain" (String.mk g)
    | none => info
  match searchPos macAt cs with
  | some g => dictInsert info "MAC Address" (String.mk g)
  | none => info

/-- One `dc=([^,]+)` match (case-sensitive) at a position, returning the
group and the rest. -/
def ldapDcAt (s : Chars) : Option (Chars × Chars) :=
  match dropLit "dc=".data s with
  | none => none
  | some s1 =>
    match plus1 (· ≠ ',') s1 with
    | some (g, rest) => some (g, rest)
    | none => none

/-- `namingContexts:\s*(.+)` with `re.IGNORECASE`, at a position. -/
def ldapContextAt (s : Chars) : Option Chars :=
  match dropLitCI "namingcontexts:".data s with
  | none => none
  | some r => wsStarDotPlus r

/-- `WindowsEnumeration.parse_ldap_output`. -/
def parse_ldap_output (output : String) : List (String × String) :=
  let cs := output.data
  let info : List (String × String) := []
  let domain_matches := findAll ldapDcAt cs
  let info :=
    if ¬ domain_matches.isEmpty then
      dictInsert info "LDAP Domain" (joinDot (domain_matches.map String.mk))
    else info
  match searchPos ldapContextAt cs with
  | some g => dictInsert info "Naming Contexts" (pyStrip (String.mk g))
  | none => info

/-- `WindowsEnumeration.enumerate_windows_host`: SMB, NetBIOS and (when an
LDAP port is among the discovered services) LDAP enumeration, updating the
host's `windows_info`, `domain` and evidence. -/
def enumerate_windows_host (env : Env) (target : String) (host_info : HostInfo) : HostInfo :=
  let smb_output := (enumerate_smb env target).1
  let host_info := host_info.add_command_output ("enum4linux -a " ++ target) smb_output
  let smb_info := parse_smb_output smb_output
  let host_info := { host_info with windows_info := dictMerge host_info.windows_info smb_info }
  let host_info :=
    match dictLookup smb_info "Domain/Workgroup" with
    | some domain =>
      if domain ≠ "" && domain ≠ "WORKGROUP" then { host_info with domain := some domain }
      else host_info
    | none => host_info
  let netbios_output := (enumerate_netbios env target).1
  let host_info := host_info.add_command_output ("nmblookup -A " ++ target) netbios_output
  let netbios_info := parse_netbios_output netbios_output
  let host_info := { host_info with windows_info := dictMerge host_info.windows_info netbios_info }
  let has_ldap := host_info.services.any fun svc =>
    (svc.port = 389 || svc.port = 636) && svc.protocol = "tcp"
  let host_info :=
    if has_ldap then
      let ldap_output := (enumerate_ldap env target).1
      let host_info := host_info.add_command_output ("ldapsearch -x -H ldap://" ++ target) ldap_output
      let ldap_info := parse_ldap_output ldap_output
      let host_info := { host_info with windows_info := dictMerge host_info.windows_info ldap_info }
      match dictLookup ldap_info "LDAP Domain" with
      | some d => { host_info with domain := some d }
      | none => host_info
    else host_info
  match dictLookup smb_info "OS Version" with
  | some os_version => host_info.add_unverified_info ("OS Version is at least " ++ os_version)
  | none => host_info

end WindowsEnumeration

/-! ## main.py -/

namespace Main

/-- The OS-detection block of `main.enumerate_host` (after the scan call):
record the raw output as evidence, then overwrite `os_type` (and
`os_version` when truthy, and the Windows flag) only when the parse yielded
a truthy OS type, and append the unverified notes. -/
def applyOsDetection (host_info : HostInfo) (target_ip os_output : String) : HostInfo :=
  let host_info := host_info.add_command_output ("nmap -O --osscan-guess " ++ target_ip) os_output
  let (os_type, os_version, unverified) := NmapParser.parse_os_info os_output
  let host_info :=
    if NmapParser.optStrTruthy os_type then
      let host_info := { host_info with os_type := os_type }
      let host_info :=
        if NmapParser.optStrTruthy os_version then { host_info with os_version := os_version }
        else host_info
      { host_info with is_windows := NmapParser.optEqStr os_type "Windows" }
    else host_info
  unverified.foldl (fun h i => h.add_unverified_info i) host_info

/-- `main.enumerate_host`: raises (`Except.error`) when nmap is missing;
otherwise quick TCP scan, parse (falling back to a minimal host that
records the raw output), OS detection, optional Windows-specific
enumeration, and insertion into the results. -/
def enumerate_host (env : Env) (target_ip : String) (results : EnumerationResults) :
    Except String (HostInfo × EnumerationResults) :=
  if ¬ NmapHandler.check_nmap_installed env then
    Except.error "nmap is required but not found"
  else
    let nmap_output := (NmapHandler.nmap_tcp_quick env target_ip none).1
    let command := "nmap -sV -sC -F " ++ target_ip
    let host_info :=
      match NmapParser.parse_nmap_output nmap_output command with
      | some h => h
      | none => HostInfo.add_command_output { ip_address := target_ip } command nmap_output
    let os_output := (NmapHandler.nmap_os_detection env target_ip).1
    let host_info := applyOsDetection host_info target_ip os_output
    let host_info :=
      if host_info.is_windows then
        WindowsEnumeration.enumerate_windows_host env target_ip host_info
      else host_info
    Except.ok (host_info, results.add_host host_info)

/-- The per-target error entry built by `main`'s loop when
`enumerate_host` raises. -/
def errorHost (target_ip msg : String) : HostInfo :=
  HostInfo.add_unverified_info { ip_address := target_ip } ("Enumeration error: " ++ msg)

/-- One iteration of `main`'s enumeration loop: on an exception, the error
entry is added instead. -/
def loopStep (env : Env) (results : EnumerationResults) (target_ip : String) :
    EnumerationResults :=
  match enumerate_host env target_ip results with
  | Except.ok (_, results') => results'
  | Except.error e => results.add_host (errorHost target_ip e)

/-- `main`'s enumeration loop over the (sorted) target list. -/
def runLoop (env : Env) (targets : List String) (results : EnumerationResults) :
    EnumerationResults :=
  targets.foldl (loopStep env) results

/-- The observable outcome of `main` up to report generation. -/
inductive MainOutcome where
  | helpShown
  | noValidTargets
  | cancelled
  | allExcluded
  | completed (results : EnumerationResults)
deriving DecidableEq

/-- `sys.exit` code of each outcome (`completed` exits 0 when report
writing, which is external, succeeds). -/
def exitCode : MainOutcome → Nat
  | .helpShown => 0
  | .noValidTargets => 1
  | .cancelled => 0
  | .allExcluded => 1
  | .completed _ => 0

/-- Number of Result Collection entries of each outcome. -/
def entriesCount : MainOutcome → Nat
  | .completed r => r.hosts.length
  | _ => 0

/-- `main`: argument handling (`args.targets` is falsy when absent or the
empty string), target parsing, DNS-safety gating, exclusion subtraction,
and the enumeration loop over the sorted final targets. -/
def mainRun (env : Env) (targetsArg : Option String) (helpFlag : Bool)
    (excludeArg : String) : MainOutcome :=
  if helpFlag || targetsArg = none || targetsArg = some "" then .helpShown
  else
    let spec := targetsArg.getD ""
    let targets := TargetParser.parse_targets env spec
    if targets = ∅ then .noValidTargets
    else if TargetParser.has_dns_targets spec && ! env.confirm then .cancelled
    else
      let targets :=
        if excludeArg ≠ "" then targets \ TargetParser.parse_exclusions env excludeArg
        else targets
      if targets = ∅ then .allExcluded
      else .completed (runLoop env (targets.sort (· ≤ ·)) {})

end Main

/-! ## Statement-level definitions and concrete test environments -/

/-- The three specific platform kinds the extractor can produce. -/
def isSpecificOs (o : Option String) : Prop :=
  o = some "Windows" ∨ o = some "Linux" ∨ o = some "Unix"

def hasLdapService (services : List Service) : Bool :=
  services.any fun svc => (svc.port = 389 || svc.port = 636) && svc.protocol = "tcp"

def smbDomainValue (env : Env) (target : String) : Option String :=
  dictLookup (WindowsEnumeration.parse_smb_output
    (WindowsEnumeration.enumerate_smb env target).1) "Domain/Workgroup"

def ldapDomainValue (env : Env) (target : String) : Option String :=
  dictLookup (WindowsEnumeration.parse_ldap_output
    (WindowsEnumeration.enumerate_ldap env target).1) "LDAP Domain"

def smbAppliedDomain (env : Env) (target : String) (d : Option String) : Option String :=
  match smbDomainValue env target with
  | some v => if v ≠ "" && v ≠ "WORKGROUP" then some v else d
  | none => d

def winDomainResult (env : Env) (target : String) (services : List Service)
    (d : Option String) : Option String :=
  if hasLdapService services then
    match ldapDomainValue env target with
    | some d2 => some d2
    | none => smbAppliedDomain env target d
  else smbAppliedDomain env target d

/-- Environment whose enum4linux reports the placeholder workgroup. -/
def envSmbWorkgroup : Env :=
  { runProcess := fun cmd =>
      if cmd.head? = some "enum4linux" then
        ProcResult.completed "Domain/Workgroup: WORKGROUP" 0
      else ProcResult.completed "" 0,
    resolve := fun _ => none, confirm := true }

/-- Environment whose ldapsearch reports a directory-service domain. -/
def envLdapCorp : Env :=
  { runProcess := fun cmd =>
      if cmd.head? = some "ldapsearch" then
        ProcResult.completed "namingContexts: dc=corp,dc=local" 0
      else ProcResult.completed "" 0,
    resolve := fun _ => none, confirm := true }

/-- A Windows host with an already-known domain and no LDAP port. -/
def hostCorp : HostInfo :=
  { ip_address := "10.0.0.9", domain := some "CORP.LOCAL", is_windows := true }

/-- A Windows host with an open LDAP service. -/
def hostLdap : HostInfo :=
  { ip_address := "10.0.0.9", domain := some "OLDDOMAIN", is_windows := true,
    services := [{ svcName := "ldap", port := 389, protocol := "tcp" }] }

/-- A benign environment: every subprocess completes with empty output and
status 0. -/
def envOk : Env :=
  { runProcess := fun _ => ProcResult.completed "" 0,
    resolve := fun _ => none, confirm := true }

/-- First component of a successful `enumerate_host` outcome. -/
def okHostOf : Except String (HostInfo × EnumerationResults) → HostInfo
  | .ok (h, _) => h
  | .error _ => { ip_address := "" }

/-- Second component of a successful `enumerate_host` outcome. -/
def okResOf : Except String (HostInfo × EnumerationResults) → EnumerationResults
  | .ok (_, r) => r
  | .error _ => {}

/-- Environment with a working nmap whose quick scan of 192.168.1.5 times
out. -/
def envTimeout : Env :=
  { runProcess := fun cmd =>
      if cmd = NmapHandler.quickCmdList "192.168.1.5" none then ProcResult.timedOut
      else ProcResult.completed "" 0,
    resolve := fun _ => none, confirm := true }

/-- Environment where every subprocess fails to start (nmap missing). -/
def envNoNmap : Env :=
  { runProcess := fun _ => ProcResult.failed "nmap missing",
    resolve := fun _ => none, confirm := true }

/-! ## Supporting lemmas -/

theorem dictLookup_dictInsert_self {α : Type} (l : List (String × α)) (k : String) (v : α) :
    dictLookup (dictInsert l k v) k = some v := by
  induction l with
  | nil => simp [dictInsert, dictLookup]
  | cons kv rest ih =>
    by_cases h : kv.1 = k
    · simp [dictInsert, dictLookup, h]
    · simp [dictInsert, dictLookup, h, ih]

theorem dictLookup_dictInsert_ne {α : Type} (l : List (String × α)) (k : String) (v : α)
    (k' : String) (h : k' ≠ k) :
    dictLookup (dictInsert l k v) k' = dictLookup l k' := by
  induction l with
  | nil =>
    simp only [dictInsert, dictLookup]
    rw [if_neg (fun hh => h hh.symm)]
  | cons kv rest ih =>
    rcases kv with ⟨k1, v1⟩
    by_cases hk : k1 = k
    · subst hk
      simp only [dictInsert, if_pos rfl, dictLookup]
      rw [if_neg (fun hh => h hh.symm), if_neg (fun hh => h hh.symm)]
    · simp only [dictInsert, if_neg hk, dictLookup]
      by_cases hk' : k1 = k'
      · simp [hk']
      · simp [hk', ih]

theorem length_dictInsert_of_fresh {α : Type} (l : List (String × α)) (k : String) (v : α)
    (h : dictLookup l k = none) : (dictInsert l k v).length = l.length + 1 := by
  induction l with
  | nil => simp [dictInsert]
  | cons kv rest ih =>
    by_cases hk : kv.1 = k
    · simp [dictLookup, hk] at h
    · simp only [dictLookup, hk, if_neg hk, ite_false] at h
      simp [dictInsert, hk, ih h]

theorem foldl_add_unverified (l : List String) (h : HostInfo) :
    l.foldl (fun hh i => hh.add_unverified_info i) h =
      { h with unverified_info := h.unverified_info ++ l } := by
  induction l generalizing h with
  | nil => simp
  | cons x xs ih =>
    rw [List.foldl_cons, ih]
    simp [HostInfo.add_unverified_info, List.append_assoc]

/-! ## Claim C2 -/

/-- C2: for all target sets T and exclusion sets E, the final target set
computed by set subtraction is disjoint from E and included in T, and
excluding an address not present in T is a no-op (and the operation is
total, never an error). -/
theorem claim_C2 (T E : Finset String) :
    TargetParser.get_final_targets T E ∩ E = ∅ ∧
    TargetParser.get_final_targets T E ⊆ T ∧
    ∀ a : String, a ∉ T →
      TargetParser.get_final_targets T (insert a E) = TargetParser.get_final_targets T E := by
  refine ⟨?_, ?_, ?_⟩
  · simp [TargetParser.get_final_targets, Finset.sdiff_inter_self]
  · exact Finset.sdiff_subset
  · intro a ha
    ext x
    simp only [TargetParser.get_final_targets, Finset.mem_sdiff, Finset.mem_insert]
    constructor
    · rintro ⟨hx, h2⟩
      exact ⟨hx, fun hE => h2 (Or.inr hE)⟩
    · rintro ⟨hx, h2⟩
      refine ⟨hx, ?_⟩
      rintro (rfl | hE)
      · exact ha hx
      · exact h2 hE

theorem claim_C2_witness :
    TargetParser.get_final_targets {"10.0.0.1", "10.0.0.2"} {"10.0.0.2"} ∩ {"10.0.0.2"} = ∅ ∧
    TargetParser.get_final_targets {"10.0.0.1", "10.0.0.2"} {"10.0.0.2"} ⊆ {"10.0.0.1", "10.0.0.2"} ∧
    TargetParser.get_final_targets {"10.0.0.1", "10.0.0.2"} (insert "10.0.0.3" {"10.0.0.2"}) =
      TargetParser.get_final_targets {"10.0.0.1", "10.0.0.2"} {"10.0.0.2"} :=
  ⟨(claim_C2 {"10.0.0.1", "10.0.0.2"} {"10.0.0.2"}).1,
   (claim_C2 {"10.0.0.1", "10.0.0.2"} {"10.0.0.2"}).2.1,
   (claim_C2 {"10.0.0.1", "10.0.0.2"} {"10.0.0.2"}).2.2 "10.0.0.3" (by decide)⟩

/-! ## Claim C5 -/

/-- C5: `has_dns_targets` is true iff at least one non-empty stripped
comma-delimited atom neither contains a slash nor is a valid literal IPv4
address; in particular it is false on "192.168.1.1,192.168.1.0/24" and true
on "192.168.1.1,example.com".  It is a pure predicate of the specification
string (no resolver argument). -/
theorem claim_C5 :
    (∀ spec : String,
      TargetParser.has_dns_targets spec = true ↔
        ∃ part ∈ (pySplit ',' spec).map pyStrip,
          part ≠ "" ∧ pyContainsChar '/' part = false ∧ is_valid_ip part = false) ∧
    TargetParser.has_dns_targets "192.168.1.1,192.168.1.0/24" = false ∧
    TargetParser.has_dns_targets "192.168.1.1,example.com" = true := by
  refine ⟨?_, by decide, by decide⟩
  intro spec
  simp only [TargetParser.has_dns_targets, List.any_eq_true]
  refine exists_congr fun part => and_congr_right fun _ => ?_
  by_cases h1 : part = ""
  · simp [h1]
  · by_cases h2 : pyContainsChar '/' part
    · simp [h1, h2]
    · by_cases h3 : is_valid_ip part
      · simp [h1, h2, h3]
      · simp [h1, h2, h3]

/-! ## Claim C6 -/

/-- C6: expanding "192.168.1.0/30" yields exactly the two usable host
addresses 192.168.1.1 and 192.168.1.2 (network and broadcast excluded), and
on any range the CIDR library rejects (`ValueError`), `expand_cidr` returns
the empty list instead of raising. -/
theorem claim_C6 :
    expand_cidr "192.168.1.0/30" = ["192.168.1.1", "192.168.1.2"] ∧
    ∀ s : String, parseCidr s = none → expand_cidr s = [] := by
  refine ⟨by decide, ?_⟩
  intro s h
  simp [expand_cidr, h]

theorem claim_C6_witness : expand_cidr "192.168.1.0/33" = [] :=
  claim_C6.2 "192.168.1.0/33" (by decide)

/-! ## Claim C8 -/

/-- C8: at the DNS safety prompt, an empty (stripped) response returns
false (abort, fail closed), a response recognized as yes returns true, a
response recognized as no returns false, and any other response re-prompts
(the result is that of the remaining responses), so the outcome is decided
by the first empty-or-recognized response. -/
theorem claim_C8 (r : String) (rest : List String) :
    (pyLower (pyStrip r) = "" → DNSSafety.prompt_confirmation (r :: rest) = some false) ∧
    ((pyLower (pyStrip r) = "y" ∨ pyLower (pyStrip r) = "yes") →
      DNSSafety.prompt_confirmation (r :: rest) = some true) ∧
    ((pyLower (pyStrip r) = "n" ∨ pyLower (pyStrip r) = "no") →
      DNSSafety.prompt_confirmation (r :: rest) = some false) ∧
    (pyLower (pyStrip r) ≠ "" ∧ pyLower (pyStrip r) ≠ "y" ∧ pyLower (pyStrip r) ≠ "yes" ∧
      pyLower (pyStrip r) ≠ "n" ∧ pyLower (pyStrip r) ≠ "no" →
      DNSSafety.prompt_confirmation (r :: rest) = DNSSafety.prompt_confirmation rest) := by
  refine ⟨?_, ?_, ?_, ?_⟩
  · intro h
    simp [DNSSafety.prompt_confirmation, h]
  · rintro (h | h) <;> simp [DNSSafety.prompt_confirmation, h]
  · rintro (h | h) <;> simp [DNSSafety.prompt_confirmation, h]
  · rintro ⟨h1, h2, h3, h4, h5⟩
    simp [DNSSafety.prompt_confirmation, h1, h2, h3, h4, h5]

theorem claim_C8_witness :
    DNSSafety.prompt_confirmation ["   "] = some false ∧
    DNSSafety.prompt_confirmation ["YES", "n"] = some true ∧
    DNSSafety.prompt_confirmation ["No"] = some false ∧
    DNSSafety.prompt_confirmation ["maybe", "y"] = DNSSafety.prompt_confirmation ["y"] :=
  ⟨(claim_C8 "   " []).1 (by decide),
   (claim_C8 "YES" ["n"]).2.1 (Or.inr (by decide)),
   (claim_C8 "No" []).2.2.1 (Or.inr (by decide)),
   (claim_C8 "maybe" ["y"]).2.2.2 (by decide)⟩

/-! ## Claim C10 -/

/-- C10: every Service appended by nmap-output parsing has state exactly
"open", and every entry of the extracted capability sequence comes from a
line whose matched state group is exactly "open" — lines with any other
state are excluded. -/
theorem claim_C10 (output : String) :
    (∀ s ∈ NmapParser.parse_services output, s.state = "open") ∧
    (∀ e ∈ extract_services_from_nmap output,
      ∃ line ∈ splitOnChar '\n' output.data, ∃ m, searchPos svcLineAt line = some m ∧
        m.state = "open" ∧ e.port = m.port ∧ e.protocol = m.protocol ∧
        e.svcName = m.svcName) := by
  constructor
  · intro s hs
    rcases List.mem_map.1 hs with ⟨svc, _, rfl⟩
    rfl
  · intro e he
    rcases List.mem_filterMap.1 he with ⟨line, hline, hf⟩
    rcases hm : searchPos svcLineAt line with _ | m
    · rw [hm] at hf; exact absurd hf (by simp)
    · rw [hm] at hf
      dsimp only at hf
      by_cases hst : m.state = "open"
      · rw [if_pos hst] at hf
        rcases Option.some.inj hf with rfl
        exact ⟨line, hline, m, hm, hst, rfl, rfl, rfl⟩
      · rw [if_neg hst] at hf
        exact absurd hf (by simp)

theorem claim_C10_witness :
    (Service.mk "ssh" 22 "tcp" (some "OpenSSH 8.2p1") "open").state = "open" ∧
    ∃ line ∈ splitOnChar '\n' ("22/tcp   open  ssh     OpenSSH 8.2p1\n80/tcp   filtered http" : String).data,
      ∃ m, searchPos svcLineAt line = some m ∧ m.state = "open" ∧
        (SvcEntry.mk 22 "tcp" "ssh" (some "OpenSSH 8.2p1")).port = m.port ∧
        (SvcEntry.mk 22 "tcp" "ssh" (some "OpenSSH 8.2p1")).protocol = m.protocol ∧
        (SvcEntry.mk 22 "tcp" "ssh" (some "OpenSSH 8.2p1")).svcName = m.svcName :=
  ⟨(claim_C10 "22/tcp   open  ssh     OpenSSH 8.2p1\n80/tcp   filtered http").1
      (Service.mk "ssh" 22 "tcp" (some "OpenSSH 8.2p1") "open") (by decide),
   (claim_C10 "22/tcp   open  ssh     OpenSSH 8.2p1\n80/tcp   filtered http").2
      (SvcEntry.mk 22 "tcp" "ssh" (some "OpenSSH 8.2p1")) (by decide)⟩

/-! ## Claim C4 -/

theorem extract_os_fst_cases (out : String) :
    (extract_os_from_nmap out).1 = none ∨ isSpecificOs (extract_os_from_nmap out).1 := by
  unfold extract_os_from_nmap isSpecificOs
  rcases hw : windowsOsSearch out.data with _ | v
  · rcases hl : linuxOsSearch out.data with _ | v
    · by_cases hu : unixOsSearch out.data <;> simp [hw, hl, hu]
    · simp [hw, hl]
  · simp [hw]

theorem parse_os_info_fst (out : String) :
    (NmapParser.parse_os_info out).1 = (extract_os_from_nmap out).1 := by
  unfold NmapParser.parse_os_info
  rcases extract_os_from_nmap out with ⟨a, b⟩
  rfl

/-- Full characterization of the OS-detection update step. -/
theorem applyOsDetection_eq (h : HostInfo) (target o : String) :
    Main.applyOsDetection h target o =
      { h with
        command_outputs := h.command_outputs ++
          [⟨"nmap -O --osscan-guess " ++ target, o⟩],
        os_type := if NmapParser.optStrTruthy (NmapParser.parse_os_info o).1 then
            (NmapParser.parse_os_info o).1 else h.os_type,
        os_version := if NmapParser.optStrTruthy (NmapParser.parse_os_info o).1 &&
            NmapParser.optStrTruthy (NmapParser.parse_os_info o).2.1 then
            (NmapParser.parse_os_info o).2.1 else h.os_version,
        is_windows := if NmapParser.optStrTruthy (NmapParser.parse_os_info o).1 then
            NmapParser.optEqStr (NmapParser.parse_os_info o).1 "Windows" else h.is_windows,
        unverified_info := h.unverified_info ++ (NmapParser.parse_os_info o).2.2 } := by
  unfold Main.applyOsDetection
  rcases hpo : NmapParser.parse_os_info o with ⟨ot, ov, unv⟩
  dsimp only
  rw [foldl_add_unverified]
  by_cases ht : NmapParser.optStrTruthy ot <;>
    by_cases hv : NmapParser.optStrTruthy ov <;>
      simp [hpo, ht, hv, HostInfo.add_command_output]

theorem applyOsDetection_specific (h : HostInfo) (target o : String)
    (hs : isSpecificOs h.os_type) :
    isSpecificOs (Main.applyOsDetection h target o).os_type := by
  rw [applyOsDetection_eq]
  dsimp only
  have hfst := parse_os_info_fst o
  by_cases ht : NmapParser.optStrTruthy (NmapParser.parse_os_info o).1
  · rw [if_pos ht]
    rcases extract_os_fst_cases o with hn | hsp
    · rw [← hfst] at hn
      rw [hn] at ht
      exact absurd ht (by simp [NmapParser.optStrTruthy])
    · rw [← hfst] at hsp
      exact hsp
  · rw [if_neg ht]
    exact hs

/-- C4: once a Host Finding's os_type holds a specific value (Windows,
Linux or Unix), no sequence of OS-detection result applications (the
update step of `enumerate_host`) can take it back to Unknown or to absent
— it always remains one of the three specific values. -/
theorem claim_C4 (host : HostInfo) (target : String) (outs : List String)
    (hs : isSpecificOs host.os_type) :
    isSpecificOs ((outs.foldl (fun h o => Main.applyOsDetection h target o) host).os_type) ∧
    (outs.foldl (fun h o => Main.applyOsDetection h target o) host).os_type ≠ some "Unknown" ∧
    (outs.foldl (fun h o => Main.applyOsDetection h target o) host).os_type ≠ none := by
  have hmain : isSpecificOs ((outs.foldl (fun h o => Main.applyOsDetection h target o) host).os_type) := by
    induction outs generalizing host with
    | nil => exact hs
    | cons o os ih =>
      rw [List.foldl_cons]
      exact ih _ (applyOsDetection_specific host target o hs)
  refine ⟨hmain, ?_, ?_⟩
  · rcases hmain with h1 | h1 | h1 <;> rw [h1] <;> simp
  · rcases hmain with h1 | h1 | h1 <;> rw [h1] <;> simp

theorem claim_C4_witness :
    isSpecificOs (((["completed without OS match"] : List String).foldl
      (fun h o => Main.applyOsDetection h "10.0.0.1" o)
      { ip_address := "10.0.0.1", os_type := some "Windows" }).os_type) ∧
    ((["completed without OS match"] : List String).foldl
      (fun h o => Main.applyOsDetection h "10.0.0.1" o)
      { ip_address := "10.0.0.1", os_type := some "Windows" }).os_type ≠ some "Unknown" ∧
    ((["completed without OS match"] : List String).foldl
      (fun h o => Main.applyOsDetection h "10.0.0.1" o)
      { ip_address := "10.0.0.1", os_type := some "Windows" }).os_type ≠ none :=
  claim_C4 { ip_address := "10.0.0.1", os_type := some "Windows" } "10.0.0.1"
    ["completed without OS match"] (Or.inl rfl)

/-! ## Claim C7 -/

theorem winEnum_ip (env : Env) (target : String) (h : HostInfo) :
    (WindowsEnumeration.enumerate_windows_host env target h).ip_address = h.ip_address := by
  unfold WindowsEnumeration.enumerate_windows_host
  dsimp only [HostInfo.add_command_output, HostInfo.add_unverified_info]
  repeat' split
  all_goals rfl

theorem winEnum_os_type (env : Env) (target : String) (h : HostInfo) :
    (WindowsEnumeration.enumerate_windows_host env target h).os_type = h.os_type := by
  unfold WindowsEnumeration.enumerate_windows_host
  dsimp only [HostInfo.add_command_output, HostInfo.add_unverified_info]
  repeat' split
  all_goals rfl

theorem winEnum_is_windows (env : Env) (target : String) (h : HostInfo) :
    (WindowsEnumeration.enumerate_windows_host env target h).is_windows = h.is_windows := by
  unfold WindowsEnumeration.enumerate_windows_host
  dsimp only [HostInfo.add_command_output, HostInfo.add_unverified_info]
  repeat' split
  all_goals rfl

theorem winEnum_services (env : Env) (target : String) (h : HostInfo) :
    (WindowsEnumeration.enumerate_windows_host env target h).services = h.services := by
  unfold WindowsEnumeration.enumerate_windows_host
  dsimp only [HostInfo.add_command_output, HostInfo.add_unverified_info]
  repeat' split
  all_goals rfl

theorem winEnum_domain (env : Env) (target : String) (h : HostInfo) :
    (WindowsEnumeration.enumerate_windows_host env target h).domain =
      winDomainResult env target h.services h.domain := by
  unfold WindowsEnumeration.enumerate_windows_host winDomainResult smbAppliedDomain
    smbDomainValue ldapDomainValue hasLdapService
  dsimp only [HostInfo.add_command_output, HostInfo.add_unverified_info]
  rcases hS : dictLookup (WindowsEnumeration.parse_smb_output
      (WindowsEnumeration.enumerate_smb env target).1) "Domain/Workgroup" with _ | v <;>
    simp only [hS] <;>
    [skip;
     (by_cases hv : (v ≠ "" && v ≠ "WORKGROUP") = true <;>
       [simp only [if_pos hv]; simp only [if_neg hv]])] <;>
    (by_cases hL : (h.services.any fun svc =>
        (svc.port = 389 || svc.port = 636) && svc.protocol = "tcp") = true <;>
      [(simp only [if_pos hL]
        rcases hLD : dictLookup (WindowsEnumeration.parse_ldap_output
            (WindowsEnumeration.enumerate_ldap env target).1) "LDAP Domain" with _ | d <;>
          simp only [hLD]);
       simp only [if_neg hL]] <;>
      rcases hO : dictLookup (WindowsEnumeration.parse_smb_output
          (WindowsEnumeration.enumerate_smb env target).1) "OS Version" with _ | osv <;>
        simp only [hO])

theorem winEnum_cmds (env : Env) (target : String) (h : HostInfo) :
    (WindowsEnumeration.enumerate_windows_host env target h).command_outputs =
      h.command_outputs ++
        ⟨"enum4linux -a " ++ target, (WindowsEnumeration.enumerate_smb env target).1⟩ ::
        ⟨"nmblookup -A " ++ target, (WindowsEnumeration.enumerate_netbios env target).1⟩ ::
        (if hasLdapService h.services then
          [⟨"ldapsearch -x -H ldap://" ++ target, (WindowsEnumeration.enumerate_ldap env target).1⟩]
         else []) := by
  unfold WindowsEnumeration.enumerate_windows_host hasLdapService
  dsimp only [HostInfo.add_command_output, HostInfo.add_unverified_info]
  rcases hS : dictLookup (WindowsEnumeration.parse_smb_output
      (WindowsEnumeration.enumerate_smb env target).1) "Domain/Workgroup" with _ | v <;>
    simp only [hS] <;>
    [skip;
     (by_cases hv : (v ≠ "" && v ≠ "WORKGROUP") = true <;>
       [simp only [if_pos hv]; simp only [if_neg hv]])] <;>
    (by_cases hL : (h.services.any fun svc =>
        (svc.port = 389 || svc.port = 636) && svc.protocol = "tcp") = true <;>
      [(simp only [if_pos hL]
        rcases hLD : dictLookup (WindowsEnumeration.parse_ldap_output
            (WindowsEnumeration.enumerate_ldap env target).1) "LDAP Domain" with _ | d <;>
          simp only [hLD]);
       simp only [if_neg hL]] <;>
      rcases hO : dictLookup (WindowsEnumeration.parse_smb_output
          (WindowsEnumeration.enumerate_smb env target).1) "OS Version" with _ | osv <;>
        simp only [hO] <;> simp [List.append_assoc])

/-- C7: during Windows-specific enumeration, an SMB-derived domain value
that is absent, empty, or the default placeholder "WORKGROUP" never
overwrites the host's domain field — a previously set specific domain is
preserved (absent an LDAP override) — while an LDAP-derived domain value
does supersede it. -/
theorem claim_C7 (env : Env) (target : String) (h : HostInfo) :
    ((smbDomainValue env target = none ∨ smbDomainValue env target = some "" ∨
        smbDomainValue env target = some "WORKGROUP") →
      hasLdapService h.services = false →
      (WindowsEnumeration.enumerate_windows_host env target h).domain = h.domain) ∧
    (∀ d : String, hasLdapService h.services = true →
      ldapDomainValue env target = some d →
      (WindowsEnumeration.enumerate_windows_host env target h).domain = some d) := by
  constructor
  · intro hsmb hldap
    rw [winEnum_domain]
    unfold winDomainResult
    rw [hldap]
    simp only [Bool.false_eq_true, if_false]
    unfold smbAppliedDomain
    rcases hsmb with h1 | h1 | h1 <;> rw [h1] <;> simp
  · intro d hldap hd
    rw [winEnum_domain]
    unfold winDomainResult
    rw [hldap, hd]
    simp

theorem claim_C7_witness :
    (WindowsEnumeration.enumerate_windows_host envSmbWorkgroup "10.0.0.9" hostCorp).domain =
      hostCorp.domain ∧
    (WindowsEnumeration.enumerate_windows_host envLdapCorp "10.0.0.9" hostLdap).domain =
      some "corp.local" :=
  ⟨(claim_C7 envSmbWorkgroup "10.0.0.9" hostCorp).1 (by decide) (by decide),
   (claim_C7 envLdapCorp "10.0.0.9" hostLdap).2 "corp.local" (by decide) (by decide)⟩

/-! ## Claim C9 -/

theorem applyOs_ip (h : HostInfo) (t o : String) :
    (Main.applyOsDetection h t o).ip_address = h.ip_address := by
  rw [applyOsDetection_eq]

theorem applyOs_services (h : HostInfo) (t o : String) :
    (Main.applyOsDetection h t o).services = h.services := by
  rw [applyOsDetection_eq]

theorem applyOs_cmds (h : HostInfo) (t o : String) :
    (Main.applyOsDetection h t o).command_outputs =
      h.command_outputs ++ [⟨"nmap -O --osscan-guess " ++ t, o⟩] := by
  rw [applyOsDetection_eq]

theorem applyOs_iff (h : HostInfo) (t o : String)
    (hiff : h.is_windows = true ↔ h.os_type = some "Windows") :
    (Main.applyOsDetection h t o).is_windows = true ↔
      (Main.applyOsDetection h t o).os_type = some "Windows" := by
  rw [applyOsDetection_eq]
  dsimp only
  by_cases ht : NmapParser.optStrTruthy (NmapParser.parse_os_info o).1
  · rw [if_pos ht, if_pos ht]
    rcases hx : (NmapParser.parse_os_info o).1 with _ | s
    · rw [hx] at ht
      exact absurd ht (by simp [NmapParser.optStrTruthy])
    · simp [NmapParser.optEqStr]
  · rw [if_neg ht, if_neg ht]
    exact hiff

theorem parse_nmap_output_spec (out cmd : String) (h0 : HostInfo)
    (hp : NmapParser.parse_nmap_output out cmd = some h0) :
    h0.command_outputs = [⟨cmd, out⟩] ∧
    (h0.is_windows = true ↔ h0.os_type = some "Windows") := by
  unfold NmapParser.parse_nmap_output at hp
  rcases hip : NmapParser.parse_ip_address out with _ | ip
  · rw [hip] at hp
    exact absurd hp (by simp)
  · rw [hip] at hp
    rcases hpo : NmapParser.parse_os_info out with ⟨ot, ov, unv⟩
    rw [hpo] at hp
    dsimp only at hp
    rw [foldl_add_unverified] at hp
    rcases Option.some.inj hp with rfl
    refine ⟨rfl, ?_⟩
    rcases ot with _ | t
    · simp [NmapParser.optEqStr, HostInfo.add_command_output]
    · by_cases ht : t = ""
      · subst ht
        simp [NmapParser.optEqStr, HostInfo.add_command_output]
      · simp [NmapParser.optEqStr, HostInfo.add_command_output, ht]

theorem ldapCmd_ne_smbCmd (t : String) :
    ("ldapsearch -x -H ldap://" ++ t) ≠ ("enum4linux -a " ++ t) := by
  intro heq
  have h1 : ("ldapsearch -x -H ldap://" ++ t).data.head? = some 'l' := rfl
  rw [heq] at h1
  have h2 : ("enum4linux -a " ++ t).data.head? = some 'e' := rfl
  rw [h2] at h1
  exact absurd h1 (by decide)

theorem ldapCmd_ne_nbCmd (t : String) :
    ("ldapsearch -x -H ldap://" ++ t) ≠ ("nmblookup -A " ++ t) := by
  intro heq
  have h1 : ("ldapsearch -x -H ldap://" ++ t).data.head? = some 'l' := rfl
  rw [heq] at h1
  have h2 : ("nmblookup -A " ++ t).data.head? = some 'n' := rfl
  rw [h2] at h1
  exact absurd h1 (by decide)

theorem postScan_spec (env : Env) (target : String) (h2 : HostInfo)
    (h2cmds : h2.command_outputs.map CommandOutput.command =
      [("nmap -sV -sC -F " ++ target), ("nmap -O --osscan-guess " ++ target)])
    (h2iff : h2.is_windows = true ↔ h2.os_type = some "Windows") :
    ∃ probes,
      (if h2.is_windows then WindowsEnumeration.enumerate_windows_host env target h2
        else h2).command_outputs.map CommandOutput.command =
        ("nmap -sV -sC -F " ++ target) :: ("nmap -O --osscan-guess " ++ target) :: probes ∧
      (probes ≠ [] ↔
        (if h2.is_windows then WindowsEnumeration.enumerate_windows_host env target h2
          else h2).os_type = some "Windows") ∧
      (("ldapsearch -x -H ldap://" ++ target) ∈ probes ↔
        ((if h2.is_windows then WindowsEnumeration.enumerate_windows_host env target h2
           else h2).os_type = some "Windows" ∧
         hasLdapService (if h2.is_windows then
             WindowsEnumeration.enumerate_windows_host env target h2
           else h2).services = true)) := by
  by_cases hw : h2.is_windows = true
  · rw [if_pos hw]
    refine ⟨("enum4linux -a " ++ target) :: ("nmblookup -A " ++ target) ::
      (if hasLdapService h2.services then ["ldapsearch -x -H ldap://" ++ target] else []),
      ?_, ?_, ?_⟩
    · rw [winEnum_cmds]
      by_cases hl : hasLdapService h2.services = true <;>
        simp [hl, h2cmds, List.map_append]
    · simp only [winEnum_os_type]
      constructor
      · intro _
        exact h2iff.mp hw
      · intro _
        simp
    · rw [winEnum_os_type, winEnum_services]
      by_cases hl : hasLdapService h2.services = true <;>
        simp [hl, List.mem_cons, ldapCmd_ne_smbCmd target, ldapCmd_ne_nbCmd target,
          h2iff.mp hw]
  · rw [if_neg hw]
    refine ⟨[], by simp [h2cmds], ?_, ?_⟩
    · exact ⟨fun hne => absurd rfl hne, fun hos => absurd (h2iff.mpr hos) hw⟩
    · exact ⟨fun hmem => absurd hmem (List.not_mem_nil _),
        fun hand => absurd (h2iff.mpr hand.1) hw⟩

/-- C9: within one host's enumeration, the evidence trail always starts
with the quick-scan and OS-detection scan commands; platform probing
produces entries only after them, and does so iff the scanned platform
kind is Windows; and the directory-service (LDAP) probe is invoked iff the
host is Windows and its discovered services include a TCP service on port
389 or 636. -/
theorem claim_C9 (env : Env) (target : String) (results : EnumerationResults)
    (h : HostInfo) (res' : EnumerationResults)
    (hok : Main.enumerate_host env target results = Except.ok (h, res')) :
    ∃ probes,
      h.command_outputs.map CommandOutput.command =
        ("nmap -sV -sC -F " ++ target) :: ("nmap -O --osscan-guess " ++ target) :: probes ∧
      (probes ≠ [] ↔ h.os_type = some "Windows") ∧
      (("ldapsearch -x -H ldap://" ++ target) ∈ probes ↔
        (h.os_type = some "Windows" ∧ hasLdapService h.services = true)) := by
  unfold Main.enumerate_host at hok
  by_cases hc : NmapHandler.check_nmap_installed env
  swap
  · simp [hc] at hok
  rw [if_neg (by simp [hc])] at hok
  dsimp only at hok
  simp only [Except.ok.injEq, Prod.mk.injEq] at hok
  obtain ⟨hH, hres⟩ := hok
  subst hH
  rcases hp : NmapParser.parse_nmap_output (NmapHandler.nmap_tcp_quick env target none).1
      ("nmap -sV -sC -F " ++ target) with _ | hh <;> simp only [hp]
  · -- parse failed: minimal host
    refine postScan_spec env target _ ?_ ?_
    · rw [applyOs_cmds]
      simp [HostInfo.add_command_output]
    · refine applyOs_iff _ _ _ ?_
      simp [HostInfo.add_command_output]
  · -- parse succeeded
    obtain ⟨hcmds, hiff⟩ := parse_nmap_output_spec _ _ _ hp
    refine postScan_spec env target _ ?_ ?_
    · rw [applyOs_cmds, hcmds]
      simp
    · exact applyOs_iff _ _ _ hiff

theorem claim_C9_witness :
    ∃ probes,
      (okHostOf (Main.enumerate_host envOk "10.0.0.1" {})).command_outputs.map
          CommandOutput.command =
        ("nmap -sV -sC -F " ++ "10.0.0.1") :: ("nmap -O --osscan-guess " ++ "10.0.0.1") :: probes ∧
      (probes ≠ [] ↔
        (okHostOf (Main.enumerate_host envOk "10.0.0.1" {})).os_type = some "Windows") ∧
      (("ldapsearch -x -H ldap://" ++ "10.0.0.1") ∈ probes ↔
        ((okHostOf (Main.enumerate_host envOk "10.0.0.1" {})).os_type = some "Windows" ∧
          hasLdapService (okHostOf (Main.enumerate_host envOk "10.0.0.1" {})).services = true)) :=
  claim_C9 envOk "10.0.0.1" {}
    (okHostOf (Main.enumerate_host envOk "10.0.0.1" {}))
    (okResOf (Main.enumerate_host envOk "10.0.0.1" {})) rfl

/-! ## Claim C1 -/

theorem add_host_hosts (r : EnumerationResults) (h : HostInfo) :
    (r.add_host h).hosts = dictInsert r.hosts h.ip_address h := rfl

theorem enumerate_host_error (env : Env) (t : String) (r : EnumerationResults)
    (hc : NmapHandler.check_nmap_installed env = false) :
    Main.enumerate_host env t r = Except.error "nmap is required but not found" := by
  unfold Main.enumerate_host
  rw [if_pos (by simp [hc])]

theorem parse_nmap_timeout :
    ∀ cmd : String, NmapParser.parse_nmap_output "Nmap scan timed out" cmd = none := by
  intro cmd
  unfold NmapParser.parse_nmap_output
  rw [show NmapParser.parse_ip_address "Nmap scan timed out" = none from by decide]

theorem enumerate_host_timeout (env : Env) (t : String)
    (hc : NmapHandler.check_nmap_installed env = true)
    (hto : env.runProcess (NmapHandler.quickCmdList t none) = ProcResult.timedOut) :
    ∃ B : HostInfo,
      (∀ r : EnumerationResults, Main.enumerate_host env t r = Except.ok (B, r.add_host B)) ∧
      B.ip_address = t ∧
      (⟨"nmap -sV -sC -F " ++ t, "Nmap scan timed out"⟩ : CommandOutput) ∈ B.command_outputs := by
  have hq : NmapHandler.nmap_tcp_quick env t none = ("Nmap scan timed out", -1) := by
    unfold NmapHandler.nmap_tcp_quick
    rw [hto]
  refine ⟨if (Main.applyOsDetection
        (HostInfo.add_command_output { ip_address := t } ("nmap -sV -sC -F " ++ t)
          "Nmap scan timed out") t (NmapHandler.nmap_os_detection env t).1).is_windows then
      WindowsEnumeration.enumerate_windows_host env t
        (Main.applyOsDetection
          (HostInfo.add_command_output { ip_address := t } ("nmap -sV -sC -F " ++ t)
            "Nmap scan timed out") t (NmapHandler.nmap_os_detection env t).1)
    else
      Main.applyOsDetection
        (HostInfo.add_command_output { ip_address := t } ("nmap -sV -sC -F " ++ t)
          "Nmap scan timed out") t (NmapHandler.nmap_os_detection env t).1,
    fun r => ?_, ?_, ?_⟩
  · unfold Main.enumerate_host
    rw [if_neg (by simp [hc])]
    simp only [hq, parse_nmap_timeout]
  · by_cases hw : (Main.applyOsDetection
        (HostInfo.add_command_output { ip_address := t } ("nmap -sV -sC -F " ++ t)
          "Nmap scan timed out") t (NmapHandler.nmap_os_detection env t).1).is_windows = true
    · rw [if_pos hw, winEnum_ip, applyOs_ip]
      rfl
    · rw [if_neg hw, applyOs_ip]
      rfl
  · by_cases hw : (Main.applyOsDetection
        (HostInfo.add_command_output { ip_address := t } ("nmap -sV -sC -F " ++ t)
          "Nmap scan timed out") t (NmapHandler.nmap_os_detection env t).1).is_windows = true
    · rw [if_pos hw, winEnum_cmds, applyOs_cmds]
      simp [HostInfo.add_command_output]
    · rw [if_neg hw, applyOs_cmds]
      simp [HostInfo.add_command_output]

theorem runLoop_preserves (env : Env) (ts : List String)
    (hstep : ∀ t ∈ ts, ∃ h : HostInfo,
      (∀ res, Main.loopStep env res t = res.add_host h) ∧ h.ip_address = t) :
    ∀ (res : EnumerationResults) (k : String), k ∉ ts →
      dictLookup (Main.runLoop env ts res).hosts k = dictLookup res.hosts k := by
  induction ts with
  | nil => intro res k _; rfl
  | cons t ts ih =>
    intro res k hk
    obtain ⟨h, hstepEq, hip⟩ := hstep t (List.mem_cons_self t ts)
    have hrl : Main.runLoop env (t :: ts) res = Main.runLoop env ts (res.add_host h) := by
      simp [Main.runLoop, List.foldl_cons, hstepEq res]
    rw [hrl,
      ih (fun t' ht' => hstep t' (List.mem_cons_of_mem _ ht')) (res.add_host h) k
        (fun hm => hk (List.mem_cons_of_mem _ hm)),
      add_host_hosts, hip,
      dictLookup_dictInsert_ne _ _ _ _ (fun hEq => hk (by rw [hEq]; exact List.mem_cons_self t ts))]

theorem runLoop_inserts (env : Env) (Q : HostInfo → Prop) :
    ∀ targets : List String,
      (∀ t ∈ targets, ∃ h : HostInfo,
        (∀ res, Main.loopStep env res t = res.add_host h) ∧ h.ip_address = t ∧ Q h) →
      ∀ res : EnumerationResults, targets.Nodup →
        (∀ t ∈ targets, dictLookup res.hosts t = none) →
        (Main.runLoop env targets res).hosts.length = res.hosts.length + targets.length ∧
        ∀ t ∈ targets, ∃ h, dictLookup (Main.runLoop env targets res).hosts t = some h ∧
          h.ip_address = t ∧ Q h := by
  intro targets
  induction targets with
  | nil =>
    intro _ res _ _
    exact ⟨rfl, by simp⟩
  | cons t ts ih =>
    intro hstep res hnd hfresh
    obtain ⟨h, hstepEq, hip, hQ⟩ := hstep t (List.mem_cons_self t ts)
    have hndts : ts.Nodup := (List.nodup_cons.mp hnd).2
    have htnot : t ∉ ts := (List.nodup_cons.mp hnd).1
    have hrl : Main.runLoop env (t :: ts) res = Main.runLoop env ts (res.add_host h) := by
      simp [Main.runLoop, List.foldl_cons, hstepEq res]
    have hfresh' : ∀ t' ∈ ts, dictLookup (res.add_host h).hosts t' = none := by
      intro t' ht'
      have hne : t' ≠ t := fun hEq => htnot (by rw [← hEq]; exact ht')
      rw [add_host_hosts, hip, dictLookup_dictInsert_ne _ _ _ _ hne]
      exact hfresh t' (List.mem_cons_of_mem _ ht')
    obtain ⟨ihlen, ihlook⟩ :=
      ih (fun t' ht' => hstep t' (List.mem_cons_of_mem _ ht')) (res.add_host h) hndts hfresh'
    constructor
    · rw [hrl, ihlen, add_host_hosts, hip,
        length_dictInsert_of_fresh _ _ _ (hfresh t (List.mem_cons_self t ts))]
      simp only [List.length_cons]
      omega
    · intro t' ht'
      rcases List.mem_cons.mp ht' with rfl | hmem
      · have hlookadd : dictLookup (res.add_host h).hosts t' = some h := by
          rw [add_host_hosts, hip]
          exact dictLookup_dictInsert_self _ _ _
        have hpres :
            dictLookup (Main.runLoop env ts (res.add_host h)).hosts t' =
              dictLookup (res.add_host h).hosts t' :=
          runLoop_preserves env ts
            (fun u hu => (hstep u (List.mem_cons_of_mem _ hu)).imp
              (fun hh hhf => ⟨hhf.1, hhf.2.1⟩))
            (res.add_host h) t' htnot
        rw [hrl]
        exact ⟨h, by rw [hpres, hlookadd], hip, hQ⟩
      · rw [hrl]
        exact ihlook t' hmem

/-- C1 (amended): every target whose scan step times out still yields
exactly one Host Finding keyed by that address, containing a command-output
evidence entry with the scan's timeout text (so the run's result count
equals the number of targets when every target fails this way); a target
whose enumeration raises the tool-invocation failure (nmap missing) also
yields exactly one Host Finding keyed by that address, but there the
failure is recorded as an unverified-info note and the finding has no
command-output evidence at all. -/
theorem claim_C1 (env : Env) (targets : List String) (hnd : targets.Nodup) :
    (NmapHandler.check_nmap_installed env = true →
      (∀ t ∈ targets, env.runProcess (NmapHandler.quickCmdList t none) = ProcResult.timedOut) →
      (Main.runLoop env targets {}).hosts.length = targets.length ∧
      ∀ t ∈ targets, ∃ h, dictLookup (Main.runLoop env targets {}).hosts t = some h ∧
        h.ip_address = t ∧ ∃ co ∈ h.command_outputs, co.output = "Nmap scan timed out") ∧
    (NmapHandler.check_nmap_installed env = false →
      (Main.runLoop env targets {}).hosts.length = targets.length ∧
      ∀ t ∈ targets, ∃ h, dictLookup (Main.runLoop env targets {}).hosts t = some h ∧
        h.ip_address = t ∧
        "Enumeration error: nmap is required but not found" ∈ h.unverified_info ∧
        h.command_outputs = []) := by
  constructor
  · intro hc hto
    have hmain := runLoop_inserts env
      (fun h => ∃ co ∈ h.command_outputs, co.output = "Nmap scan timed out") targets
      (fun t ht => by
        obtain ⟨B, hB, hip, hmem⟩ := enumerate_host_timeout env t hc (hto t ht)
        exact ⟨B, fun res => by simp [Main.loopStep, hB res], hip, ⟨_, hmem, rfl⟩⟩)
      {} hnd (fun t _ => rfl)
    simpa using hmain
  · intro hc
    have hmain := runLoop_inserts env
      (fun h => "Enumeration error: nmap is required but not found" ∈ h.unverified_info ∧
        h.command_outputs = []) targets
      (fun t ht =>
        ⟨Main.errorHost t "nmap is required but not found",
          fun res => by simp [Main.loopStep, enumerate_host_error env t res hc, Main.errorHost],
          rfl, by simp [Main.errorHost, HostInfo.add_unverified_info], rfl⟩)
      {} hnd (fun t _ => rfl)
    simpa using hmain

theorem claim_C1_witness :
    ((Main.runLoop envTimeout ["192.168.1.5"] {}).hosts.length = (["192.168.1.5"] : List String).length ∧
      ∀ t ∈ (["192.168.1.5"] : List String), ∃ h,
        dictLookup (Main.runLoop envTimeout ["192.168.1.5"] {}).hosts t = some h ∧
        h.ip_address = t ∧ ∃ co ∈ h.command_outputs, co.output = "Nmap scan timed out") ∧
    ((Main.runLoop envNoNmap ["10.0.0.1"] {}).hosts.length = (["10.0.0.1"] : List String).length ∧
      ∀ t ∈ (["10.0.0.1"] : List String), ∃ h,
        dictLookup (Main.runLoop envNoNmap ["10.0.0.1"] {}).hosts t = some h ∧
        h.ip_address = t ∧
        "Enumeration error: nmap is required but not found" ∈ h.unverified_info ∧
        h.command_outputs = []) :=
  ⟨(claim_C1 envTimeout ["192.168.1.5"] (by decide)).1 (by decide) (by decide),
   (claim_C1 envNoNmap ["10.0.0.1"] (by decide)).2 (by decide)⟩

/-- C1 as stated is false on the raised-failure path: with nmap missing,
the single target's finding reaches the Result Collection but carries no
command-output evidence entry at all. -/
theorem claim_C1_counterexample :
    ∃ h, dictLookup (Main.runLoop envNoNmap ["10.0.0.1"] {}).hosts "10.0.0.1" = some h ∧
      h.unverified_info = ["Enumeration error: nmap is required but not found"] ∧
      h.command_outputs = [] :=
  ⟨Main.errorHost "10.0.0.1" "nmap is required but not found", by decide, by decide, by decide⟩

/-! ## Claim C3 -/

/-- C3 as stated is false for the empty specification: `main` treats the
empty string as a missing argument, prints the help text and exits 0 — not
a run-level failure signal. -/
theorem claim_C3_counterexample :
    Main.mainRun envOk (some "") false "" = Main.MainOutcome.helpShown ∧
    Main.exitCode (Main.mainRun envOk (some "") false "") = 0 ∧
    Main.entriesCount (Main.mainRun envOk (some "") false "") = 0 :=
  ⟨rfl, rfl, rfl⟩

/-- C3 (amended): a run with target specification "" produces zero Result
Collection entries and no crash, but via the help path with exit code 0;
a run with a non-empty specification that resolves to zero targets, or
whose resolved targets are all excluded, produces zero entries and the
run-level failure signal (exit code 1) with an explanatory message. -/
theorem claim_C3 (env : Env) (excludeArg : String) :
    (Main.mainRun env (some "") false excludeArg = Main.MainOutcome.helpShown ∧
      Main.exitCode (Main.mainRun env (some "") false excludeArg) = 0 ∧
      Main.entriesCount (Main.mainRun env (some "") false excludeArg) = 0) ∧
    (∀ spec : String, spec ≠ "" → TargetParser.parse_targets env spec = ∅ →
      Main.mainRun env (some spec) false excludeArg = Main.MainOutcome.noValidTargets ∧
      Main.exitCode (Main.mainRun env (some spec) false excludeArg) = 1 ∧
      Main.entriesCount (Main.mainRun env (some spec) false excludeArg) = 0) ∧
    (∀ spec : String, spec ≠ "" → TargetParser.parse_targets env spec ≠ ∅ →
      (TargetParser.has_dns_targets spec && ! env.confirm) = false →
      excludeArg ≠ "" →
      TargetParser.parse_targets env spec \ TargetParser.parse_exclusions env excludeArg = ∅ →
      Main.mainRun env (some spec) false excludeArg = Main.MainOutcome.allExcluded ∧
      Main.exitCode (Main.mainRun env (some spec) false excludeArg) = 1 ∧
      Main.entriesCount (Main.mainRun env (some spec) false excludeArg) = 0) := by
  refine ⟨?_, ?_, ?_⟩
  · have hrun : Main.mainRun env (some "") false excludeArg = Main.MainOutcome.helpShown := by
      unfold Main.mainRun
      rw [if_pos (by simp)]
    exact ⟨hrun, by rw [hrun]; rfl, by rw [hrun]; rfl⟩
  · intro spec hne hempty
    have hrun : Main.mainRun env (some spec) false excludeArg =
        Main.MainOutcome.noValidTargets := by
      unfold Main.mainRun
      rw [if_neg (by simp [hne])]
      dsimp only [Option.getD]
      rw [if_pos hempty]
    exact ⟨hrun, by rw [hrun]; rfl, by rw [hrun]; rfl⟩
  · intro spec hne hnonempty hgate hex hsub
    have hrun : Main.mainRun env (some spec) false excludeArg =
        Main.MainOutcome.allExcluded := by
      unfold Main.mainRun
      rw [if_neg (by simp [hne])]
      dsimp only [Option.getD]
      rw [if_neg hnonempty, if_neg (by simp [hgate]), if_pos hex, if_pos hsub]
    exact ⟨hrun, by rw [hrun]; rfl, by rw [hrun]; rfl⟩

theorem claim_C3_witness :
    (Main.mainRun envOk (some "zzz") false "" = Main.MainOutcome.noValidTargets ∧
      Main.exitCode (Main.mainRun envOk (some "zzz") false "") = 1 ∧
      Main.entriesCount (Main.mainRun envOk (some "zzz") false "") = 0) ∧
    (Main.mainRun envOk (some "10.0.0.1") false "10.0.0.1" = Main.MainOutcome.allExcluded ∧
      Main.exitCode (Main.mainRun envOk (some "10.0.0.1") false "10.0.0.1") = 1 ∧
      Main.entriesCount (Main.mainRun envOk (some "10.0.0.1") false "10.0.0.1") = 0) :=
  ⟨(claim_C3 envOk "").2.1 "zzz" (by decide) (by decide),
   (claim_C3 envOk "10.0.0.1").2.2 "10.0.0.1" (by decide) (by decide) (by decide)
     (by decide) (by decide)⟩
